import Mathlib

/-!
Verification of the bball-api repository: a shallow embedding in Lean 4 of
the sync/transform pipeline (`src/netlify/functions/sync.js`, plus the
stats-shape sync variant), the shared utilities
(`src/netlify/functions/utils.js`: season-code resolution and the in-memory
TTL cache), together with theorems settling the behavioural claims about
them.

Conventions of the embedding:
* JavaScript numbers that can be `NaN` are modelled by `JsNum`
  (`num (q : ℚ)` or `nan`); plain finite numbers by `ℚ`; integers by `ℤ`.
* A possibly-`undefined` JSON field of type `τ` is modelled as `Option τ`
  (`none` = the field is absent / `undefined`).
* JS string operations (`split`, `trim`, `parseFloat`, `parseInt`) are
  modelled as functions over `String.data` character lists, matching the
  JS semantics on the inputs the code exercises (single-character
  separators, decimal numerals).
* `Date.now()` / `new Date().toISOString()` are threaded in as explicit
  parameters (`now : ℤ` milliseconds, `nowIso : String`).
-/

set_option autoImplicit false

namespace Js

/-- A JavaScript number: either a finite value or `NaN`.  (Infinities are
not produced by any expression in this code base.) -/
inductive JsNum where
  | num (q : ℚ)
  | nan
  deriving DecidableEq

/-- JS `+` on two possibly-`undefined` numeric field values: if both are
numbers the result is their sum, otherwise (`undefined` coerces to `NaN`)
the result is `NaN`. -/
def jsAdd (a b : Option ℚ) : JsNum :=
  match a, b with
  | some x, some y => .num (x + y)
  | _, _ => .nan

/-- JS `x ?? y` where `x` is a number-valued expression: a JS number
(including `NaN`) is never nullish, so the right operand is unreachable
and the result is always `x`. -/
def jsCoalesceNum (a : JsNum) (_b : Option ℚ) : JsNum := a

/-- JS `x ?? y` where `x` is a number-valued expression and `y` a number
literal: as the left operand is never nullish the result is `x`. -/
def jsCoalesceNumLit (a : JsNum) (_b : ℚ) : JsNum := a

/-- JS `a ?? b` on possibly-`undefined` numeric fields. -/
def jsQQ (a b : Option ℚ) : Option ℚ :=
  match a with
  | some x => some x
  | none => b

/-- JS `a ?? d` with a numeric literal default. -/
def jsQQD (a : Option ℚ) (d : ℚ) : ℚ :=
  match a with
  | some x => x
  | none => d

/-- Truthiness of a possibly-`undefined` JS string (`undefined`, `null`
and `""` are falsy). -/
def truthyStr : Option String → Bool
  | some s => s ≠ ""
  | none => false

/-- JS `a || b` on possibly-`undefined` string fields. -/
def jsOrStr (a b : Option String) : Option String :=
  if truthyStr a then a else b

/-- JS `a || null` on a possibly-`undefined` string field: a falsy left
operand collapses to `null`, which we identify with `none`. -/
def jsOrNull (a : Option String) : Option String :=
  if truthyStr a then a else none

/-- Truthiness of a possibly-`undefined` JS boolean field. -/
def truthyBool : Option Bool → Bool
  | some b => b
  | none => false

/-- Character-list core of JS `String.prototype.split` with a
single-character separator. -/
def splitCharsOn (sep : Char) (cs : List Char) : List (List Char) :=
  cs.splitOn sep

/-- JS `s.split(sep)` for a single-character separator. -/
def jsSplit (sep : Char) (s : String) : List String :=
  (splitCharsOn sep s.data).map (fun cs => ⟨cs⟩)

/-- JS whitespace characters relevant to `trim` (space, tab, newline,
carriage return). -/
def isJsSpace (c : Char) : Bool :=
  c = ' ' ∨ c = '\t' ∨ c = '\n' ∨ c = '\r'

/-- JS `String.prototype.toUpperCase` for the ASCII strings this code
base handles (competition codes, season codes). -/
def jsToUpper (s : String) : String :=
  ⟨s.data.map fun c => if 'a' ≤ c ∧ c ≤ 'z' then Char.ofNat (c.toNat - 32) else c⟩

/-- JS `s.trim()`. -/
def jsTrim (s : String) : String :=
  ⟨(s.data.dropWhile isJsSpace).reverse.dropWhile isJsSpace |>.reverse⟩

/-- Decimal digit test. -/
def isDigit (c : Char) : Bool :=
  '0' ≤ c ∧ c ≤ '9'

/-- Numeric value of a decimal digit. -/
def digitVal (c : Char) : ℕ :=
  c.toNat - '0'.toNat

/-- Value of a list of decimal digits (most significant first). -/
def digitsVal (cs : List Char) : ℕ :=
  cs.foldl (fun acc c => acc * 10 + digitVal c) 0

/-- JS `parseFloat` restricted to the numerals this code base feeds it:
an optional `-` sign followed by decimal digits and an optional fractional
part; any trailing non-numeric characters are ignored.  Returns `NaN`
when no leading digits are present. -/
def jsParseFloat (s : String) : JsNum :=
  let cs := s.data
  let (neg, cs) := match cs with
    | '-' :: rest => (true, rest)
    | _ => (false, cs)
  let intPart := cs.takeWhile isDigit
  let rest := cs.dropWhile isDigit
  if intPart.isEmpty then .nan
  else
    let fracPart := match rest with
      | '.' :: r => r.takeWhile isDigit
      | _ => []
    let mag : ℚ := (digitsVal intPart : ℚ) +
      (digitsVal fracPart : ℚ) / ((10 : ℚ) ^ fracPart.length)
    .num (if neg then -mag else mag)

/-- JS `parseInt` (radix 10) restricted likewise: optional sign then
leading decimal digits; `none` models the `NaN` result. -/
def jsParseInt (s : String) : Option ℤ :=
  let cs := s.data
  let (neg, cs) := match cs with
    | '-' :: rest => (true, rest)
    | _ => (false, cs)
  let intPart := cs.takeWhile isDigit
  if intPart.isEmpty then none
  else
    let v : ℤ := (digitsVal intPart : ℤ)
    some (if neg then -v else v)

/-- JS `x || d`: a number-valued expression `x` falls through to the
default `d` when it is falsy (`0` or `NaN`). -/
def jsOrNum (a : JsNum) (d : ℚ) : ℚ :=
  match a with
  | .num q => if q = 0 then d else q
  | .nan => d

/-- JS `/` by a nonzero literal, propagating `NaN`. -/
def jsDivLit (a : JsNum) (d : ℚ) : JsNum :=
  match a with
  | .num q => .num (q / d)
  | .nan => .nan

/-- JS `+` on two number-valued expressions, propagating `NaN`. -/
def jsAddN (a b : JsNum) : JsNum :=
  match a, b with
  | .num x, .num y => .num (x + y)
  | _, _ => .nan

end Js

namespace Utils

/-!  Embedding of `src/netlify/functions/utils.js`. -/

open Js

/-- `buildSeasonCode(code = "E", season = "2025", seasonCodeOverride = null)`:
if the override is truthy (a non-empty string) it is returned verbatim,
else `code.toUpperCase() + season`. -/
def buildSeasonCode (code : String) (season : String)
    (seasonCodeOverride : Option String) : String :=
  if truthyStr seasonCodeOverride then seasonCodeOverride.getD ""
  else jsToUpper code ++ season

/-- Query parameters a sync / read request can carry (absent = `none`). -/
structure Params where
  code : Option String
  season : Option String
  seasonCode : Option String
  games : Option String
  skipBoxscores : Option String

/-- `getSeasonCode(params)`: destructures with defaults
`code = "E"`, `season = "2025"`, then
`buildSeasonCode(code, season, seasonCode || null)`. -/
def getSeasonCode (params : Params) : String :=
  buildSeasonCode (params.code.getD "E") (params.season.getD "2025")
    (jsOrNull params.seasonCode)

/-- An entry of the in-memory cache `_cache`:
`{ data, expires: Date.now() + ttlSeconds*1000, storedAt }`.
`storedAt` keeps the set-time (the code stores its ISO rendering). -/
structure CacheEntry (α : Type) where
  data : α
  expires : ℤ
  storedAt : ℤ

/-- The cache state: a `Map` modelled as an insertion-ordered association
list with unique keys. -/
structure CacheState (α : Type) where
  entries : List (String × CacheEntry α)

/-- The empty cache (`new Map()`). -/
def cacheEmpty {α : Type} : CacheState α := ⟨[]⟩

/-- `Map.prototype.get`. -/
def mapGet {α : Type} (m : List (String × CacheEntry α)) (k : String) :
    Option (CacheEntry α) :=
  match m.find? (fun p => p.1 = k) with
  | some p => some p.2
  | none => none

/-- `Map.prototype.set`: replaces the value in place when the key exists
(preserving insertion order), else appends. -/
def mapSet {α : Type} (m : List (String × CacheEntry α)) (k : String)
    (v : CacheEntry α) : List (String × CacheEntry α) :=
  match m with
  | [] => [(k, v)]
  | (k', v') :: rest =>
    if k' = k then (k, v) :: rest else (k', v') :: mapSet rest k v

/-- `Map.prototype.delete`. -/
def mapDelete {α : Type} (m : List (String × CacheEntry α)) (k : String) :
    List (String × CacheEntry α) :=
  m.filter (fun p => p.1 ≠ k)

/-- `cache.get(key)` at time `now`: returns `null` when the key is absent;
when present but `Date.now() > entry.expires`, deletes the entry and
returns `null`; otherwise returns the stored data.  The (possibly
mutated) cache state is returned alongside. -/
def cacheGet {α : Type} (m : CacheState α) (now : ℤ) (key : String) :
    Option α × CacheState α :=
  match mapGet m.entries key with
  | none => (none, m)
  | some entry =>
    if now > entry.expires then (none, ⟨mapDelete m.entries key⟩)
    else (some entry.data, m)

/-- `cache.set(key, data, ttlSeconds)` at time `now`: stores
`{ data, expires: now + ttlSeconds*1000, storedAt: now }`, overwriting any
prior entry. -/
def cacheSet {α : Type} (m : CacheState α) (now : ℤ) (key : String)
    (data : α) (ttlSeconds : ℤ) : CacheState α :=
  ⟨mapSet m.entries key ⟨data, now + ttlSeconds * 1000, now⟩⟩

/-- `cache.stats().keys`: the key list of the underlying `Map`. -/
def cacheStatsKeys {α : Type} (m : CacheState α) : List String :=
  m.entries.map (fun p => p.1)

end Utils

namespace Sync

/-!  Embedding of `src/netlify/functions/sync.js` (the boxscore-shape sync
variant): data model, transforms, extraction, upsert helper, bounded
fan-out and the main handler. -/

open Js

/-- Upstream club record nested in a game's team result. -/
structure Club where
  code : Option String
  editorialName : Option String
  abbreviatedName : Option String
  name : Option String
  tvCode : Option String
  crest : Option String

/-- Quarter partials + overtime map of a team result
(`partials1..partials4`, `extraPeriods`). -/
structure Partials where
  partials1 : Option ℤ
  partials2 : Option ℤ
  partials3 : Option ℤ
  partials4 : Option ℤ
  extraPeriods : Option (List (String × ℤ))

/-- One side (`local` / `road`) of an upstream game record. -/
structure TeamResult where
  club : Option Club
  score : Option ℤ
  partials : Option Partials

/-- Upstream game record, with the fields the sync code reads.  Absent
JSON fields are `none`. -/
structure Game where
  gameCode : ℤ
  identifier : Option String
  round : Option ℤ
  roundAlias : Option String
  gameStatus : Option String
  played : Option Bool
  utcDate : Option String
  date : Option String
  «local» : Option TeamResult
  road : Option TeamResult
  venueName : Option String
  audience : Option ℤ

/-- Truthiness of a possibly-`undefined` JS integer field. -/
def truthyInt : Option ℤ → Bool
  | some n => n ≠ 0
  | none => false

/-- The persisted `live_games` row produced by `transformGame`. -/
structure GameRow where
  game_code : ℤ
  season_code : String
  competition : String
  identifier : String
  round : Option ℤ
  round_alias : Option String
  game_status : String
  played : Bool
  game_date : Option String
  local_code : Option String
  local_name : Option String
  local_full_name : Option String
  local_tv_code : Option String
  local_logo : Option String
  local_score : ℤ
  local_q1 : Option ℤ
  local_q2 : Option ℤ
  local_q3 : Option ℤ
  local_q4 : Option ℤ
  local_ot : List (String × ℤ)
  road_code : Option String
  road_name : Option String
  road_full_name : Option String
  road_tv_code : Option String
  road_logo : Option String
  road_score : ℤ
  road_q1 : Option ℤ
  road_q2 : Option ℤ
  road_q3 : Option ℤ
  road_q4 : Option ℤ
  road_ot : List (String × ℤ)
  venue_name : Option String
  audience : Option ℤ
  raw_data : Game
  synced_at : String

/-- `game.local?.club` / `game.road?.club` of a team-result side. -/
def clubOf (t : Option TeamResult) : Option Club :=
  t.bind fun x => x.club

/-- `side?.club?.code || null`. -/
def clubCode (t : Option TeamResult) : Option String :=
  jsOrNull ((clubOf t).bind fun c => c.code)

/-- `side?.club?.editorialName || side?.club?.abbreviatedName || null`. -/
def clubShortName (t : Option TeamResult) : Option String :=
  jsOrNull (jsOrStr ((clubOf t).bind fun c => c.editorialName)
    ((clubOf t).bind fun c => c.abbreviatedName))

/-- `side?.club?.name || null`. -/
def clubFullName (t : Option TeamResult) : Option String :=
  jsOrNull ((clubOf t).bind fun c => c.name)

/-- `side?.club?.tvCode || null`. -/
def clubTvCode (t : Option TeamResult) : Option String :=
  jsOrNull ((clubOf t).bind fun c => c.tvCode)

/-- `side?.club?.images?.crest || null`. -/
def clubLogo (t : Option TeamResult) : Option String :=
  jsOrNull ((clubOf t).bind fun c => c.crest)

/-- `side?.score ?? 0`. -/
def scoreOf (t : Option TeamResult) : ℤ :=
  (t.bind fun x => x.score).getD 0

/-- `side?.partials`. -/
def partialsOf (t : Option TeamResult) : Option Partials :=
  t.bind fun x => x.partials

/-- `side?.partials?.partialsN ?? null`. -/
def quarterOf (t : Option TeamResult) (proj : Partials → Option ℤ) : Option ℤ :=
  (partialsOf t).bind proj

/-- `side?.partials?.extraPeriods || {}`. -/
def otOf (t : Option TeamResult) : List (String × ℤ) :=
  ((partialsOf t).bind fun p => p.extraPeriods).getD []

/-- `transformGame(game, seasonCode, competition)`: flattens an upstream
game into a `live_games` row.  `syncedAt` is the ISO timestamp the code
obtains from `new Date().toISOString()`.  The per-field fallback chains
are the helpers above, applied to the `local` and `road` sides. -/
def transformGame (game : Game) (seasonCode : String) (competition : String)
    (syncedAt : String) : GameRow :=
  { game_code := game.gameCode
    season_code := seasonCode
    competition := competition
    identifier :=
      if truthyStr game.identifier then game.identifier.getD ""
      else seasonCode ++ "_" ++ toString game.gameCode
    round := if truthyInt game.round then game.round else none
    round_alias := jsOrNull game.roundAlias
    game_status :=
      if truthyStr game.gameStatus then game.gameStatus.getD ""
      else if truthyBool game.played then "Played" else "Scheduled"
    played := truthyBool game.played
    game_date := jsOrNull (jsOrStr game.utcDate game.date)
    local_code := clubCode game.«local»
    local_name := clubShortName game.«local»
    local_full_name := clubFullName game.«local»
    local_tv_code := clubTvCode game.«local»
    local_logo := clubLogo game.«local»
    local_score := scoreOf game.«local»
    local_q1 := quarterOf game.«local» (fun p => p.partials1)
    local_q2 := quarterOf game.«local» (fun p => p.partials2)
    local_q3 := quarterOf game.«local» (fun p => p.partials3)
    local_q4 := quarterOf game.«local» (fun p => p.partials4)
    local_ot := otOf game.«local»
    road_code := clubCode game.road
    road_name := clubShortName game.road
    road_full_name := clubFullName game.road
    road_tv_code := clubTvCode game.road
    road_logo := clubLogo game.road
    road_score := scoreOf game.road
    road_q1 := quarterOf game.road (fun p => p.partials1)
    road_q2 := quarterOf game.road (fun p => p.partials2)
    road_q3 := quarterOf game.road (fun p => p.partials3)
    road_q4 := quarterOf game.road (fun p => p.partials4)
    road_ot := otOf game.road
    venue_name := jsOrNull game.venueName
    audience := if truthyInt game.audience then game.audience else none
    raw_data := game
    synced_at := syncedAt }

end Sync

namespace Sync

open Js

/-- The playing-time value a boxscore player carries: upstream sends
either a `"MM:SS"` display string or decimal minutes as a number. -/
inductive MinVal where
  | str (s : String)
  | num (q : ℚ)

/-- Truthiness of a possibly-`undefined` minutes value (`""` and `0` are
falsy). -/
def truthyMin : Option MinVal → Bool
  | some (.str s) => s ≠ ""
  | some (.num q) => q ≠ 0
  | none => false

/-- JS `a || b` on minutes values. -/
def jsOrMin (a b : Option MinVal) : Option MinVal :=
  if truthyMin a then a else b

/-- A flat boxscore player object (`local.players[]` /
`local.playersStats[]`), with the fields `transformPlayerStats` and
`extractPlayers` read. -/
structure FlatPlayer where
  personCode : Option String
  code : Option String
  name : Option String
  «alias» : Option String
  dorsal : Option String
  position : Option String
  isStarter : Option Bool
  minutes : Option MinVal
  timePlayed : Option MinVal
  score : Option ℚ
  points : Option ℚ
  fieldGoalsMade2 : Option ℚ
  fieldGoalsAttempted2 : Option ℚ
  fieldGoalsMade3 : Option ℚ
  fieldGoalsAttempted3 : Option ℚ
  fieldGoalsMade : Option ℚ
  fieldGoalsAttempted : Option ℚ
  twoPointsMade : Option ℚ
  twoPointsAttempted : Option ℚ
  threePointsMade : Option ℚ
  threePointsAttempted : Option ℚ
  freeThrowsMade : Option ℚ
  freeThrowsAttempted : Option ℚ
  offensiveRebounds : Option ℚ
  defensiveRebounds : Option ℚ
  totalRebounds : Option ℚ
  assists : Option ℚ
  assistances : Option ℚ
  turnovers : Option ℚ
  steals : Option ℚ
  blocksFavour : Option ℚ
  blocks : Option ℚ
  blocksAgainst : Option ℚ
  foulsCommitted : Option ℚ
  foulsReceived : Option ℚ
  valuation : Option ℚ
  pir : Option ℚ
  plusMinus : Option ℚ

/-- `parseMinutes(minStr)`: `"25:30" → 25.5`.  A falsy or non-string
argument yields `0`; a two-part `"MM:SS"` string yields
`parseFloat(MM) + parseFloat(SS)/60`; any other string falls through to
`parseFloat(minStr) || 0`. -/
def parseMinutes (minStr : Option MinVal) : JsNum :=
  match minStr with
  | none => .num 0
  | some (.num _) => .num 0
  | some (.str s) =>
    if s = "" then .num 0
    else
      match jsSplit ':' s with
      | [a, b] => jsAddN (jsParseFloat a) (jsDivLit (jsParseFloat b) 60)
      | _ => .num (jsOrNum (jsParseFloat s) 0)

/-- The `gameInfo` record `extractPlayers` builds and passes to the
transform. -/
structure GameInfo where
  gameCode : ℤ
  seasonCode : String
  competition : String
  round : Option ℤ
  gameDate : Option String

/-- The per-side team info record (`{ code, name, tvCode }`). -/
structure TeamInfo where
  code : Option String
  name : Option String
  tvCode : Option String

/-- The persisted `player_stats` row produced by the boxscore-shape
`transformPlayerStats`.  `field_goals_made` / `field_goals_attempted` are
`JsNum` because the JS expression computing them can evaluate to `NaN`. -/
structure PlayerRow where
  game_code : ℤ
  season_code : String
  competition : String
  round : Option ℤ
  game_date : Option String
  team_code : Option String
  team_name : Option String
  team_tv_code : Option String
  is_local : Bool
  person_code : Option String
  player_name : Option String
  player_alias : Option String
  dorsal : Option String
  position : Option String
  is_starter : Bool
  minutes : Option MinVal
  minutes_decimal : JsNum
  points : ℚ
  field_goals_made : JsNum
  field_goals_attempted : JsNum
  two_points_made : ℚ
  two_points_attempted : ℚ
  three_points_made : ℚ
  three_points_attempted : ℚ
  free_throws_made : ℚ
  free_throws_attempted : ℚ
  offensive_rebounds : ℚ
  defensive_rebounds : ℚ
  total_rebounds : ℚ
  assists : ℚ
  turnovers : ℚ
  steals : ℚ
  blocks_favour : ℚ
  blocks_against : ℚ
  fouls_committed : ℚ
  fouls_received : ℚ
  pir : ℚ
  plus_minus : ℚ
  raw_data : FlatPlayer
  synced_at : String

/-- `transformPlayerStats(player, gameInfo, teamInfo, isLocal)` of
`sync.js`.  Note on `field_goals_made`: the source expression is
`player.fieldGoalsMade2 + player.fieldGoalsMade3 ?? player.fieldGoalsMade ?? 0`;
JS `+` binds tighter than `??`, so the left operand of each `??` is the
(never nullish) numeric sum and the fallbacks are unreachable — this is
rendered by `jsCoalesceNum` / `jsCoalesceNumLit`. -/
def transformPlayerStats (player : FlatPlayer) (gameInfo : GameInfo)
    (teamInfo : TeamInfo) (isLocal : Bool) (syncedAt : String) : PlayerRow :=
  { game_code := gameInfo.gameCode
    season_code := gameInfo.seasonCode
    competition := gameInfo.competition
    round := if truthyInt gameInfo.round then gameInfo.round else none
    game_date := jsOrNull gameInfo.gameDate
    team_code := jsOrNull teamInfo.code
    team_name := jsOrNull teamInfo.name
    team_tv_code := jsOrNull teamInfo.tvCode
    is_local := isLocal
    person_code := jsOrNull (jsOrStr player.personCode player.code)
    player_name := jsOrNull player.name
    player_alias := jsOrNull player.«alias»
    dorsal := jsOrNull player.dorsal
    position := jsOrNull player.position
    is_starter := player.isStarter.getD false
    minutes := jsOrMin (jsOrMin player.minutes player.timePlayed) none
    minutes_decimal := parseMinutes (jsOrMin player.minutes player.timePlayed)
    points := jsQQD (jsQQ player.score player.points) 0
    field_goals_made := jsCoalesceNumLit
      (jsCoalesceNum (jsAdd player.fieldGoalsMade2 player.fieldGoalsMade3)
        player.fieldGoalsMade) 0
    field_goals_attempted := jsCoalesceNumLit
      (jsCoalesceNum (jsAdd player.fieldGoalsAttempted2 player.fieldGoalsAttempted3)
        player.fieldGoalsAttempted) 0
    two_points_made := jsQQD (jsQQ player.fieldGoalsMade2 player.twoPointsMade) 0
    two_points_attempted := jsQQD (jsQQ player.fieldGoalsAttempted2 player.twoPointsAttempted) 0
    three_points_made := jsQQD (jsQQ player.fieldGoalsMade3 player.threePointsMade) 0
    three_points_attempted := jsQQD (jsQQ player.fieldGoalsAttempted3 player.threePointsAttempted) 0
    free_throws_made := jsQQD player.freeThrowsMade 0
    free_throws_attempted := jsQQD player.freeThrowsAttempted 0
    offensive_rebounds := jsQQD player.offensiveRebounds 0
    defensive_rebounds := jsQQD player.defensiveRebounds 0
    total_rebounds := jsQQD player.totalRebounds
      (jsQQD player.offensiveRebounds 0 + jsQQD player.defensiveRebounds 0)
    assists := jsQQD (jsQQ player.assists player.assistances) 0
    turnovers := jsQQD player.turnovers 0
    steals := jsQQD player.steals 0
    blocks_favour := jsQQD (jsQQ player.blocksFavour player.blocks) 0
    blocks_against := jsQQD player.blocksAgainst 0
    fouls_committed := jsQQD player.foulsCommitted 0
    fouls_received := jsQQD player.foulsReceived 0
    pir := jsQQD (jsQQ player.valuation player.pir) 0
    plus_minus := jsQQD player.plusMinus 0
    raw_data := player
    synced_at := syncedAt }

/-- A club record inside a boxscore side. -/
structure BClub where
  code : Option String
  editorialName : Option String
  tvCode : Option String

/-- A team record inside a boxscore side. -/
structure BTeam where
  code : Option String
  name : Option String
  tvCode : Option String

/-- One side of a boxscore response. -/
structure SideData where
  players : Option (List FlatPlayer)
  playersStats : Option (List FlatPlayer)
  club : Option BClub
  team : Option BTeam

/-- The `{ local, road }` pair a boxscore exposes (directly or under
`stats`). -/
structure BoxData where
  «local» : Option SideData
  road : Option SideData

/-- A raw boxscore response: either carries a nested `stats` object or
exposes `local` / `road` directly. -/
structure Boxscore where
  stats : Option BoxData
  «local» : Option SideData
  road : Option SideData

/-- `const data = boxscore?.stats || boxscore`: an object is truthy, so a
present `stats` field wins. -/
def boxscoreData (b : Boxscore) : BoxData :=
  match b.stats with
  | some s => s
  | none => ⟨b.«local», b.road⟩

/-- `data?.local?.players || data?.local?.playersStats || []`: an array is
truthy even when empty, so a present `players` field wins. -/
def sidePlayers (sd : Option SideData) : List FlatPlayer :=
  match sd with
  | none => []
  | some d =>
    match d.players with
    | some l => l
    | none => d.playersStats.getD []

/-- The `{ code, name, tvCode }` record built for one side
(`club` fields win over `team` fields via `||`). -/
def sideTeam (sd : Option SideData) : TeamInfo :=
  { code := jsOrStr (sd.bind fun d => d.club.bind fun c => c.code)
      (sd.bind fun d => d.team.bind fun t => t.code)
    name := jsOrStr (sd.bind fun d => d.club.bind fun c => c.editorialName)
      (sd.bind fun d => d.team.bind fun t => t.name)
    tvCode := jsOrStr (sd.bind fun d => d.club.bind fun c => c.tvCode)
      (sd.bind fun d => d.team.bind fun t => t.tvCode) }

/-- The per-player push loop of `extractPlayers`: for each `p`, if
`p.personCode || p.code` is truthy, push `transformPlayerStats(p, …)`. -/
def pushPlayers (ps : List FlatPlayer) (gameInfo : GameInfo)
    (teamInfo : TeamInfo) (isLocal : Bool) (syncedAt : String)
    (acc : List PlayerRow) : List PlayerRow :=
  ps.foldl (fun rows p =>
    if truthyStr (jsOrStr p.personCode p.code) then
      rows ++ [transformPlayerStats p gameInfo teamInfo isLocal syncedAt]
    else rows) acc

/-- `extractPlayers(boxscore, gameCode, seasonCode, competition, round,
gameDate)` of `sync.js`: flattens a boxscore response (any of the handled
structures) into `player_stats` rows, local side first. -/
def extractPlayers (boxscore : Boxscore) (gameCode : ℤ)
    (seasonCode competition : String) (round : Option ℤ)
    (gameDate : Option String) (syncedAt : String) : List PlayerRow :=
  let gameInfo : GameInfo := ⟨gameCode, seasonCode, competition, round, gameDate⟩
  let data := boxscoreData boxscore
  let localRows := pushPlayers (sidePlayers data.«local») gameInfo
    (sideTeam data.«local») true syncedAt []
  pushPlayers (sidePlayers data.road) gameInfo (sideTeam data.road) false
    syncedAt localRows

end Sync

namespace Sync

open Js

/-- The outcome of one Supabase batch POST: `res.ok`, or a failure with
`res.status` and the response text. -/
inductive UpsertHttp where
  | ok
  | fail (status : ℕ) (text : String)

/-- The value `supabaseUpsert` returns.  In `sync.js` the early return for
empty `rows` is `{ ok: true, count: 0 }` with no `errors` field, hence
`errors : Option (List String)`. -/
structure UpsertResult where
  ok : Bool
  count : ℕ
  errors : Option (List String)
  deriving DecidableEq

/-- The `for (let i = 0; i < rows.length; i += batchSize)` loop of
`supabaseUpsert` with `batchSize = 50`: each batch is POSTed (`resp` gives
the response for the `batchIdx`-th batch); a success adds `batch.length`
to the total, a failure appends
`"<table> batch <n>: <status> — <text>"`. -/
def upsertLoop {ρ : Type} (table : String) (resp : ℕ → UpsertHttp)
    (rows : List ρ) (batchIdx : ℕ) (total : ℕ) (errs : List String) :
    ℕ × List String :=
  if h : rows.isEmpty then (total, errs)
  else
    let batch := rows.take 50
    let rest := rows.drop 50
    match resp batchIdx with
    | .ok => upsertLoop table resp rest (batchIdx + 1) (total + batch.length) errs
    | .fail status text =>
      upsertLoop table resp rest (batchIdx + 1) total
        (errs ++ [table ++ " batch " ++ toString (batchIdx + 1) ++ ": " ++
          toString status ++ " — " ++ text])
termination_by rows.length
decreasing_by
  all_goals
    have hne : rows ≠ [] := by simpa using h
    have hpos : 0 < rows.length := List.length_pos.mpr hne
    simp only [List.length_drop]
    omega

/-- `supabaseUpsert(table, rows, serviceKey)` of `sync.js`: batches of 50,
merge-duplicates upsert; `ok` iff no batch failed; empty input returns
`{ ok: true, count: 0 }` (no `errors` field). -/
def supabaseUpsert {ρ : Type} (table : String) (rows : List ρ)
    (resp : ℕ → UpsertHttp) : UpsertResult :=
  if rows.length = 0 then { ok := true, count := 0, errors := none }
  else
    let r := upsertLoop table resp rows 0 0 []
    { ok := r.2.isEmpty, count := r.1, errors := some r.2 }

/-- The settled value of one boxscore-fetch promise: the async closure
catches its own failure, so every promise fulfills with either
`{ gameCode, boxscore, game }` or `{ gameCode, error }`. -/
inductive FetchOutcome where
  | fetched (gameCode : ℤ) (boxscore : Boxscore) (game : Game)
  | failed (gameCode : ℤ) (error : String)

/-- One boxscore fetch (`euroFetch(... /games/<code>/boxscore)` inside
`try`/`catch`). `bsFetch` is the upstream oracle keyed by game code. -/
def fetchBoxscore (bsFetch : ℤ → Except String Boxscore) (game : Game) :
    FetchOutcome :=
  match bsFetch game.gameCode with
  | .ok bs => .fetched game.gameCode bs game
  | .error err => .failed game.gameCode err

/-- The mutable state of the fan-out: `boxscoreStats.fetched`,
`boxscoreStats.errors`, and `allPlayerRows`. -/
structure FanState where
  fetched : ℕ
  errors : List String
  rows : List PlayerRow

/-- Processing one settled result: a failure pushes
`"Game <gameCode>: <error>"`; a success bumps `fetched` and appends
`extractPlayers(boxscore, gameCode, …, game.round, game.utcDate || game.date)`. -/
def collectResult (seasonCode competition syncedAt : String)
    (st : FanState) (r : FetchOutcome) : FanState :=
  match r with
  | .failed gameCode err =>
    { st with errors := st.errors ++ ["Game " ++ toString gameCode ++ ": " ++ err] }
  | .fetched gameCode boxscore game =>
    { st with
      fetched := st.fetched + 1
      rows := st.rows ++ extractPlayers boxscore gameCode seasonCode competition
        game.round (jsOrStr game.utcDate game.date) syncedAt }

/-- The bounded-concurrency fan-out loop
(`for (let i = 0; i < eligibleGames.length; i += concurrency)` with
`concurrency = 5`): each batch of 5 games is fetched, the settled results
are folded into the state in batch order, then the next batch starts. -/
def fanoutLoop (bsFetch : ℤ → Except String Boxscore)
    (seasonCode competition syncedAt : String)
    (games : List Game) (st : FanState) : FanState :=
  if h : games.isEmpty then st
  else
    let batch := games.take 5
    let results := batch.map (fetchBoxscore bsFetch)
    fanoutLoop bsFetch seasonCode competition syncedAt (games.drop 5)
      (results.foldl (collectResult seasonCode competition syncedAt) st)
termination_by games.length
decreasing_by
  all_goals
    have hne : games ≠ [] := by simpa using h
    have hpos : 0 < games.length := List.length_pos.mpr hne
    simp only [List.length_drop]
    omega

/-- The eligibility filter for fetching boxscores:
`g.played === true || g.gameStatus === "Played" || g.gameStatus === "Live"
|| g.gameStatus === "Playing"`. -/
def eligiblePred (g : Game) : Bool :=
  g.played == some true || g.gameStatus == some "Played" ||
  g.gameStatus == some "Live" || g.gameStatus == some "Playing"

/-- The filter used for the reported `eligible` count in the result
object: `g.played || g.gameStatus === "Live" || g.gameStatus === "Playing"`
(note: no `"Played"` status test, and `played` by truthiness). -/
def reportedEligiblePred (g : Game) : Bool :=
  truthyBool g.played || g.gameStatus == some "Live" ||
  g.gameStatus == some "Playing"

/-- `new Set(gamesFilter.split(",").map(g => parseInt(g.trim())))`,
as the list of integers that parsed (an unparsable piece contributes
`NaN`, which `Set.has` can never match against a game code). -/
def parseFilterSet (s : String) : List ℤ :=
  (jsSplit ',' s).filterMap fun piece => jsParseInt (jsTrim piece)

/-- The optional games filter: when `gamesFilter` is truthy, keep exactly
the games whose `gameCode` is in the parsed filter set. -/
def applyGamesFilter (gamesFilter : Option String) (gamesList : List Game) :
    List Game :=
  if truthyStr gamesFilter then
    gamesList.filter fun g => (parseFilterSet (gamesFilter.getD "")).contains g.gameCode
  else gamesList

/-- A JS value that either is an array of games or is not an array. -/
inductive ListOrOther where
  | arr (gs : List Game)
  | other

/-- The stage-1 games response: either the response itself is an array,
or it is a non-array object whose `data` field may be absent/falsy
(`none`) or hold some value. -/
inductive GamesData where
  | arrData (gs : List Game)
  | objData (dataField : Option ListOrOther)

/-- `let gamesList = Array.isArray(gamesData) ? gamesData :
(gamesData.data || gamesData); if (!Array.isArray(gamesList)) …`:
yields the games list, or `none` for the fatal shape mismatch. -/
def resolveGamesList : GamesData → Option (List Game)
  | .arrData gs => some gs
  | .objData (some (.arr gs)) => some gs
  | .objData (some .other) => none
  | .objData none => none

/-- The `boxscores` field of the success body: the stats object, or the
string `"skipped"` when boxscores were skipped. -/
inductive BoxscoresField where
  | stats (eligible : ℕ) (fetched : ℕ) (playersUpserted : ℕ)
      (errors : Option (List String))
  | skipped
  deriving DecidableEq

/-- The JSON body of the 200 response (`games.found` / `games.upserted` /
`games.errors` are flattened to `gamesFound` / `gamesUpserted` /
`gamesErrors`). -/
structure SyncBody where
  success : Bool
  seasonCode : String
  competition : String
  gamesFound : ℕ
  gamesUpserted : ℕ
  gamesErrors : Option (List String)
  boxscores : BoxscoresField
  elapsed : String
  timestamp : String
  deriving DecidableEq

/-- A sync response: `jsonResponse(body)` (HTTP 200), or
`errorResponse(message, status)` whose body is `{ error, timestamp }`. -/
inductive SyncResponse where
  | success (body : SyncBody)
  | failure (error : String) (status : ℕ) (timestamp : String)
  deriving DecidableEq

/-- The HTTP status of a sync response (`jsonResponse` defaults to 200). -/
def SyncResponse.statusCode : SyncResponse → ℕ
  | .success _ => 200
  | .failure _ s _ => s

/-- The main handler (default export) of `sync.js`, with all I/O passed
in as oracles: `env` is `process.env.SUPABASE_SERVICE_KEY`; `gamesFetch`
the stage-1 `euroFetch` outcome; `bsFetch` the per-game boxscore fetch
oracle; `gamesUp` / `playersUp` the per-batch Supabase responses for the
`live_games` / `player_stats` upserts; `nowIso` the ISO timestamp and
`elapsed` the elapsed-time string.  A thrown `getSupabaseKey` or
`euroFetch` error is caught by the outer `catch` and becomes
`errorResponse("Sync failed: " + message, 500)`. -/
def syncHandler (params : Utils.Params) (env : Option String)
    (gamesFetch : Except String GamesData)
    (bsFetch : ℤ → Except String Boxscore)
    (gamesUp : ℕ → UpsertHttp) (playersUp : ℕ → UpsertHttp)
    (nowIso : String) (elapsed : String) : SyncResponse :=
  match env with
  | none => .failure ("Sync failed: SUPABASE_SERVICE_KEY env var not set. Add it in Netlify → Site config → Environment variables.") 500 nowIso
  | some _serviceKey =>
    let code := params.code.getD "E"
    let seasonCode := Utils.getSeasonCode params
    let doBoxscores := !(params.skipBoxscores == some "true") &&
      !(params.skipBoxscores == some "1")
    match gamesFetch with
    | .error e => .failure ("Sync failed: " ++ e) 500 nowIso
    | .ok gamesData =>
      match resolveGamesList gamesData with
      | none => .failure "Unexpected API response format" 500 nowIso
      | some gl =>
        let gamesList := applyGamesFilter params.games gl
        let gameRows := gamesList.map fun g =>
          transformGame g seasonCode (Js.jsToUpper code) nowIso
        let gamesResult := supabaseUpsert "live_games" gameRows gamesUp
        let boxscores :=
          if doBoxscores then
            let eligibleGames := gamesList.filter eligiblePred
            let st := fanoutLoop bsFetch seasonCode (Js.jsToUpper code) nowIso
              eligibleGames ⟨0, [], []⟩
            let final :=
              if st.rows.length > 0 then
                let psResult := supabaseUpsert "player_stats" st.rows playersUp
                let psErrs := psResult.errors.getD []
                (psResult.count,
                  if psErrs.length > 0 then st.errors ++ psErrs else st.errors)
              else (0, st.errors)
            BoxscoresField.stats ((gamesList.filter reportedEligiblePred).length)
              st.fetched final.1
              (if final.2.length > 0 then some final.2 else none)
          else BoxscoresField.skipped
        .success
          { success := true
            seasonCode := seasonCode
            competition := (Js.jsToUpper code)
            gamesFound := gamesList.length
            gamesUpserted := gamesResult.count
            gamesErrors :=
              match gamesResult.errors with
              | some errs => if errs.length > 0 then some errs else none
              | none => none
            boxscores := boxscores
            elapsed := elapsed
            timestamp := nowIso }

end Sync

namespace SyncStats

/-!  Embedding of the stats-shape sync variant (the `/api/sync` handler in
the unnamed source files that fetches `/games/<code>/stats` and flattens
`{ player, stats }` entries).  Its game-list stage, `transformGame` and
upsert loop are textually identical to `sync.js`, so those are reused
from the `Sync` namespace; the player transform, extraction, result
shape and error-slicing differ and are embedded here. -/

open Js

/-- `player.person` of a stats entry. -/
structure Person where
  code : Option String
  name : Option String
  «alias» : Option String

/-- The empty object used by `p.person || {}`. -/
def Person.empty : Person := ⟨none, none, none⟩

/-- A club record hung off a stats entry's player. -/
structure SClub where
  code : Option String
  editorialName : Option String
  abbreviatedName : Option String
  tvCode : Option String

/-- The empty object used by `… || {}`. -/
def SClub.empty : SClub := ⟨none, none, none, none⟩

/-- The `player` part of a stats entry. -/
structure SPlayerObj where
  person : Option Person
  dorsal : Option String
  position : Option ℤ
  positionName : Option String
  club : Option SClub
  type : Option String

/-- The empty object used by `entry.player || {}`. -/
def SPlayerObj.empty : SPlayerObj := ⟨none, none, none, none, none, none⟩

/-- The `stats` part of a stats entry (note the upstream typo
`foulsCommited`, which the code reads as-is). -/
structure SStats where
  points : Option ℚ
  fieldGoalsMade2 : Option ℚ
  fieldGoalsAttempted2 : Option ℚ
  fieldGoalsMade3 : Option ℚ
  fieldGoalsAttempted3 : Option ℚ
  freeThrowsMade : Option ℚ
  freeThrowsAttempted : Option ℚ
  offensiveRebounds : Option ℚ
  defensiveRebounds : Option ℚ
  totalRebounds : Option ℚ
  assistances : Option ℚ
  turnovers : Option ℚ
  steals : Option ℚ
  blocksFavour : Option ℚ
  blocksAgainst : Option ℚ
  foulsCommited : Option ℚ
  foulsReceived : Option ℚ
  valuation : Option ℚ
  plusMinus : Option ℚ
  timePlayed : Option ℚ
  dorsal : Option ℤ
  startFive : Option Bool
  startFive2 : Option Bool

/-- The empty object used by `entry.stats || {}`. -/
def SStats.empty : SStats :=
  ⟨none, none, none, none, none, none, none, none, none, none, none, none,
   none, none, none, none, none, none, none, none, none, none, none⟩

/-- One `local.players[]` / `road.players[]` entry: `{ player, stats }`. -/
structure SEntry where
  player : Option SPlayerObj
  stats : Option SStats

/-- The `team` object of one side of a stats response. -/
structure STeam where
  code : Option String
  name : Option String
  tvCode : Option String

/-- The empty object used by `sideData.team || {}`. -/
def STeam.empty : STeam := ⟨none, none, none⟩

/-- One side (`local` / `road`) of a stats response. -/
structure SSideData where
  players : Option (List SEntry)
  team : Option STeam

/-- A `/stats` response: `{ local: {...}, road: {...} }`. -/
structure SStatsData where
  «local» : Option SSideData
  road : Option SSideData

/-- `Math.round` (round half toward positive infinity). -/
def jsRound (x : ℚ) : ℤ := ⌊x + 1 / 2⌋

/-- The persisted `player_stats` row produced by the stats-shape
`transformPlayerStats`: here `minutes` is the derived `"M:SS"` string and
`minutes_decimal` the raw decimal `timePlayed`. -/
structure PlayerRow where
  game_code : ℤ
  season_code : String
  competition : String
  round : Option ℤ
  game_date : Option String
  team_code : Option String
  team_name : Option String
  team_tv_code : Option String
  is_local : Bool
  person_code : Option String
  player_name : Option String
  player_alias : Option String
  dorsal : Option String
  position : Option String
  is_starter : Bool
  minutes : String
  minutes_decimal : ℚ
  points : ℚ
  field_goals_made : ℚ
  field_goals_attempted : ℚ
  two_points_made : ℚ
  two_points_attempted : ℚ
  three_points_made : ℚ
  three_points_attempted : ℚ
  free_throws_made : ℚ
  free_throws_attempted : ℚ
  offensive_rebounds : ℚ
  defensive_rebounds : ℚ
  total_rebounds : ℚ
  assists : ℚ
  turnovers : ℚ
  steals : ℚ
  blocks_favour : ℚ
  blocks_against : ℚ
  fouls_committed : ℚ
  fouls_received : ℚ
  pir : ℚ
  plus_minus : ℚ
  raw_data : SEntry
  synced_at : String

/-- `transformPlayerStats(entry, gameInfo, teamCode, teamName, teamTvCode,
isLocal)` of the stats-shape variant: flattens a `{ player, stats }`
entry; `timePlayed` is decimal minutes and the display string is derived
from it (`"DNP"` when not positive). -/
def transformPlayerStats (entry : SEntry) (gameInfo : Sync.GameInfo)
    (teamCode teamName teamTvCode : Option String) (isLocal : Bool)
    (syncedAt : String) : PlayerRow :=
  let p := entry.player.getD SPlayerObj.empty
  let s := entry.stats.getD SStats.empty
  let person := p.person.getD Person.empty
  let fgm2 := jsQQD s.fieldGoalsMade2 0
  let fga2 := jsQQD s.fieldGoalsAttempted2 0
  let fgm3 := jsQQD s.fieldGoalsMade3 0
  let fga3 := jsQQD s.fieldGoalsAttempted3 0
  let timePlayed := jsQQD s.timePlayed 0
  let mins : ℤ := ⌊timePlayed⌋
  let secs : ℤ := jsRound ((timePlayed - (mins : ℚ)) * 60)
  let minutesStr :=
    if timePlayed > 0 then
      toString mins ++ ":" ++ (if secs < 10 then "0" else "") ++ toString secs
    else "DNP"
  { game_code := gameInfo.gameCode
    season_code := gameInfo.seasonCode
    competition := gameInfo.competition
    round := if Sync.truthyInt gameInfo.round then gameInfo.round else none
    game_date := jsOrNull gameInfo.gameDate
    team_code := teamCode
    team_name := teamName
    team_tv_code := teamTvCode
    is_local := isLocal
    person_code := jsOrNull person.code
    player_name := jsOrNull person.name
    player_alias := jsOrNull person.«alias»
    dorsal := jsOrNull (jsOrStr p.dorsal (s.dorsal.map toString))
    position := jsOrStr p.positionName
      (if Sync.truthyInt p.position then p.position.map toString else none)
    is_starter := s.startFive == some true || s.startFive2 == some true
    minutes := minutesStr
    minutes_decimal := timePlayed
    points := jsQQD s.points 0
    field_goals_made := fgm2 + fgm3
    field_goals_attempted := fga2 + fga3
    two_points_made := fgm2
    two_points_attempted := fga2
    three_points_made := fgm3
    three_points_attempted := fga3
    free_throws_made := jsQQD s.freeThrowsMade 0
    free_throws_attempted := jsQQD s.freeThrowsAttempted 0
    offensive_rebounds := jsQQD s.offensiveRebounds 0
    defensive_rebounds := jsQQD s.defensiveRebounds 0
    total_rebounds := jsQQD s.totalRebounds
      (jsQQD s.offensiveRebounds 0 + jsQQD s.defensiveRebounds 0)
    assists := jsQQD s.assistances 0
    turnovers := jsQQD s.turnovers 0
    steals := jsQQD s.steals 0
    blocks_favour := jsQQD s.blocksFavour 0
    blocks_against := jsQQD s.blocksAgainst 0
    fouls_committed := jsQQD s.foulsCommited 0
    fouls_received := jsQQD s.foulsReceived 0
    pir := jsQQD s.valuation 0
    plus_minus := jsQQD s.plusMinus 0
    raw_data := entry
    synced_at := syncedAt }

/-- The per-entry keep test of the stats-shape `extractPlayers`: the
entry's `player.person.code` must be truthy
(`if (!personCode) continue`) and the entry must not be tagged as a
non-player (`if (entry.player?.type && entry.player.type !== "J")
continue` — coaches have type `"C"`). -/
def keepEntry (e : SEntry) : Bool :=
  let personCode := e.player.bind fun pl => pl.person.bind fun pr => pr.code
  let ty := e.player.bind fun pl => pl.type
  truthyStr personCode && !(truthyStr ty && !(ty == some "J"))

/-- One side of the stats-shape `extractPlayers`: skipped entirely when
`!sideData?.players`; team identity comes from the first player's club,
falling back to the side's `team` object. -/
def sideRows (sideData : Option SSideData) (isLocal : Bool)
    (gameInfo : Sync.GameInfo) (syncedAt : String) : List PlayerRow :=
  match sideData with
  | none => []
  | some sd =>
    match sd.players with
    | none => []
    | some entries =>
      let teamObj := sd.team.getD STeam.empty
      let firstClub :=
        (entries.head?.bind fun e => e.player.bind fun pl => pl.club).getD SClub.empty
      let teamCode := jsOrNull (jsOrStr firstClub.code teamObj.code)
      let teamName := jsOrNull (jsOrStr
        (jsOrStr firstClub.editorialName firstClub.abbreviatedName) teamObj.name)
      let teamTvCode := jsOrNull (jsOrStr firstClub.tvCode teamObj.tvCode)
      entries.foldl (fun rows e =>
        if keepEntry e then
          rows ++ [transformPlayerStats e gameInfo teamCode teamName teamTvCode
            isLocal syncedAt]
        else rows) []

/-- `extractPlayers(statsData, gameCode, seasonCode, competition, round,
gameDate)` of the stats-shape variant: iterates the `local` then the
`road` side. -/
def extractPlayers (statsData : SStatsData) (gameCode : ℤ)
    (seasonCode competition : String) (round : Option ℤ)
    (gameDate : Option String) (syncedAt : String) : List PlayerRow :=
  let gameInfo : Sync.GameInfo := ⟨gameCode, seasonCode, competition, round, gameDate⟩
  sideRows statsData.«local» true gameInfo syncedAt ++
    sideRows statsData.road false gameInfo syncedAt

/-- The stats-variant `supabaseUpsert(table, rows, serviceKey,
onConflict)`: same batching loop as `sync.js`, but the empty-rows early
return is `{ ok: true, count: 0, errors: [] }` and `onConflict` only
augments the request URL. -/
structure UpsertResultC where
  ok : Bool
  count : ℕ
  errors : List String
  deriving DecidableEq

/-- See `UpsertResultC`. -/
def supabaseUpsert {ρ : Type} (table : String) (rows : List ρ)
    (resp : ℕ → Sync.UpsertHttp) (onConflict : Option String) : UpsertResultC :=
  let _conflictParam := onConflict
  if rows.length = 0 then { ok := true, count := 0, errors := [] }
  else
    let r := Sync.upsertLoop table resp rows 0 0 []
    { ok := r.2.isEmpty, count := r.1, errors := r.2 }

/-- The settled value of one stats-fetch promise. -/
inductive FetchOutcome where
  | fetched (gameCode : ℤ) (boxscore : SStatsData) (game : Sync.Game)
  | failed (gameCode : ℤ) (error : String)

/-- One stats fetch (`euroFetch(... /games/<code>/stats)` inside
`try`/`catch`). -/
def fetchStats (bsFetch : ℤ → Except String SStatsData) (game : Sync.Game) :
    FetchOutcome :=
  match bsFetch game.gameCode with
  | .ok bs => .fetched game.gameCode bs game
  | .error err => .failed game.gameCode err

/-- The fan-out state (`boxscoreStats` plus `allPlayerRows`). -/
structure FanState where
  fetched : ℕ
  errors : List String
  rows : List PlayerRow

/-- Processing one settled stats-fetch result. -/
def collectResult (seasonCode competition syncedAt : String)
    (st : FanState) (r : FetchOutcome) : FanState :=
  match r with
  | .failed gameCode err =>
    { st with errors := st.errors ++ ["Game " ++ toString gameCode ++ ": " ++ err] }
  | .fetched gameCode boxscore game =>
    { st with
      fetched := st.fetched + 1
      rows := st.rows ++ extractPlayers boxscore gameCode seasonCode competition
        game.round (jsOrStr game.utcDate game.date) syncedAt }

/-- The concurrency-5 fan-out loop of the stats-shape variant. -/
def fanoutLoop (bsFetch : ℤ → Except String SStatsData)
    (seasonCode competition syncedAt : String)
    (games : List Sync.Game) (st : FanState) : FanState :=
  if h : games.isEmpty then st
  else
    let batch := games.take 5
    let results := batch.map (fetchStats bsFetch)
    fanoutLoop bsFetch seasonCode competition syncedAt (games.drop 5)
      (results.foldl (collectResult seasonCode competition syncedAt) st)
termination_by games.length
decreasing_by
  all_goals
    have hne : games ≠ [] := by simpa using h
    have hpos : 0 < games.length := List.length_pos.mpr hne
    simp only [List.length_drop]
    omega

/-- The flat JSON body of the stats-variant 200 response (`errors` is the
games-stage error list, sliced to 5; `boxscores.errors` likewise). -/
structure Body where
  success : Bool
  seasonCode : String
  competition : String
  gamesFound : ℕ
  gamesUpserted : ℕ
  boxscores : Sync.BoxscoresField
  errors : Option (List String)
  elapsed : String
  timestamp : String
  deriving DecidableEq

/-- A stats-variant sync response. -/
inductive Response where
  | success (body : Body)
  | failure (error : String) (status : ℕ) (timestamp : String)
  deriving DecidableEq

/-- The main handler (default export) of the stats-shape sync variant;
oracle parameters as in `Sync.syncHandler`.  The games stage (shape
check, filter, `transformGame`, `live_games` upsert) is identical to
`sync.js`; upserts pass `on_conflict` columns and the result body slices
each error list to its first 5 entries. -/
def syncHandler (params : Utils.Params) (env : Option String)
    (gamesFetch : Except String Sync.GamesData)
    (bsFetch : ℤ → Except String SStatsData)
    (gamesUp : ℕ → Sync.UpsertHttp) (playersUp : ℕ → Sync.UpsertHttp)
    (nowIso : String) (elapsed : String) : Response :=
  match env with
  | none => .failure ("Sync failed: SUPABASE_SERVICE_KEY env var not set. Add it in Netlify → Site config → Environment variables.") 500 nowIso
  | some _serviceKey =>
    let code := params.code.getD "E"
    let seasonCode := Utils.getSeasonCode params
    let doBoxscores := !(params.skipBoxscores == some "true") &&
      !(params.skipBoxscores == some "1")
    match gamesFetch with
    | .error e => .failure ("Sync failed: " ++ e) 500 nowIso
    | .ok gamesData =>
      match Sync.resolveGamesList gamesData with
      | none => .failure "Unexpected API response format" 500 nowIso
      | some gl =>
        let gamesList := Sync.applyGamesFilter params.games gl
        let gameRows := gamesList.map fun g =>
          Sync.transformGame g seasonCode (Js.jsToUpper code) nowIso
        let gamesResult := supabaseUpsert "live_games" gameRows gamesUp
          (some "season_code,game_code")
        let boxscores :=
          if doBoxscores then
            let eligibleGames := gamesList.filter Sync.eligiblePred
            let st := fanoutLoop bsFetch seasonCode (Js.jsToUpper code) nowIso
              eligibleGames ⟨0, [], []⟩
            let final :=
              if st.rows.length > 0 then
                let psResult := supabaseUpsert "player_stats" st.rows playersUp
                  (some "season_code,game_code,person_code")
                (psResult.count,
                  if psResult.errors.length > 0 then st.errors ++ psResult.errors
                  else st.errors)
              else (0, st.errors)
            Sync.BoxscoresField.stats
              ((gamesList.filter Sync.reportedEligiblePred).length)
              st.fetched final.1
              (if final.2.length > 0 then some (final.2.take 5) else none)
          else Sync.BoxscoresField.skipped
        .success
          { success := true
            seasonCode := seasonCode
            competition := (Js.jsToUpper code)
            gamesFound := gamesList.length
            gamesUpserted := gamesResult.count
            boxscores := boxscores
            errors :=
              if gamesResult.errors.length > 0 then some (gamesResult.errors.take 5)
              else none
            elapsed := elapsed
            timestamp := nowIso }

end SyncStats

namespace Sync

open Js

/-- Whether a fetch oracle outcome is a success. -/
def isOkFetch {α : Type} : Except String α → Bool
  | .ok _ => true
  | .error _ => false

/-- Characterization artifact (not part of the source): the error strings
the fan-out records, one `"Game <id>: <message>"` entry per failed game,
in game order. -/
def fetchErrorMsgs (bsFetch : ℤ → Except String Boxscore)
    (games : List Game) : List String :=
  games.filterMap fun g =>
    match bsFetch g.gameCode with
    | .error e => some ("Game " ++ toString g.gameCode ++ ": " ++ e)
    | .ok _ => none

/-- Characterization artifact: the concatenated player rows extracted
from every successfully fetched game, in game order. -/
def fetchedRows (bsFetch : ℤ → Except String Boxscore)
    (seasonCode competition syncedAt : String) (games : List Game) :
    List PlayerRow :=
  (games.filterMap fun g =>
    match bsFetch g.gameCode with
    | .ok bs => some (extractPlayers bs g.gameCode seasonCode competition
        g.round (jsOrStr g.utcDate g.date) syncedAt)
    | .error _ => none).flatten

/-- A game record with every optional field absent. -/
def emptyGame (gameCode : ℤ) : Game :=
  ⟨gameCode, none, none, none, none, none, none, none, none, none, none, none⟩

/-- A flat boxscore player with every field absent. -/
def emptyFlatPlayer : FlatPlayer :=
  ⟨none, none, none, none, none, none, none, none, none, none, none, none,
   none, none, none, none, none, none, none, none, none, none, none, none,
   none, none, none, none, none, none, none, none, none, none, none, none,
   none, none⟩

/-- A boxscore response with every field absent. -/
def emptyBoxscore : Boxscore := ⟨none, none, none⟩

end Sync

namespace SyncStats

/-- Characterization artifact (not part of the source): one side of the
stats-shape extraction written as filter-then-map, with the same team
fallbacks as `sideRows`. -/
def sideRowsSpec (sideData : Option SSideData) (isLocal : Bool)
    (gameInfo : Sync.GameInfo) (syncedAt : String) : List PlayerRow :=
  match sideData with
  | none => []
  | some sd =>
    match sd.players with
    | none => []
    | some entries =>
      let teamObj := sd.team.getD STeam.empty
      let firstClub :=
        (entries.head?.bind fun e => e.player.bind fun pl => pl.club).getD SClub.empty
      let teamCode := Js.jsOrNull (Js.jsOrStr firstClub.code teamObj.code)
      let teamName := Js.jsOrNull (Js.jsOrStr
        (Js.jsOrStr firstClub.editorialName firstClub.abbreviatedName) teamObj.name)
      let teamTvCode := Js.jsOrNull (Js.jsOrStr firstClub.tvCode teamObj.tvCode)
      (entries.filter keepEntry).map fun e =>
        transformPlayerStats e gameInfo teamCode teamName teamTvCode isLocal syncedAt

end SyncStats

namespace Sync

open Js

/-- The success body `sync.js` builds once stage 1 has passed with games
list `gl` (exactly the success branch of `syncHandler`, abstracted over
the stage-1 result so that theorems can name it). -/
def syncSuccessBody (params : Utils.Params) (gl : List Game)
    (bsFetch : ℤ → Except String Boxscore)
    (gUp pUp : ℕ → UpsertHttp) (nowIso elapsed : String) : SyncBody :=
  let code := params.code.getD "E"
  let seasonCode := Utils.getSeasonCode params
  let doBoxscores := !(params.skipBoxscores == some "true") &&
    !(params.skipBoxscores == some "1")
  let gamesList := applyGamesFilter params.games gl
  let gameRows := gamesList.map fun g =>
    transformGame g seasonCode (Js.jsToUpper code) nowIso
  let gamesResult := supabaseUpsert "live_games" gameRows gUp
  let boxscores :=
    if doBoxscores then
      let eligibleGames := gamesList.filter eligiblePred
      let st := fanoutLoop bsFetch seasonCode (Js.jsToUpper code) nowIso
        eligibleGames ⟨0, [], []⟩
      let final :=
        if st.rows.length > 0 then
          let psResult := supabaseUpsert "player_stats" st.rows pUp
          let psErrs := psResult.errors.getD []
          (psResult.count,
            if psErrs.length > 0 then st.errors ++ psErrs else st.errors)
        else (0, st.errors)
      BoxscoresField.stats ((gamesList.filter reportedEligiblePred).length)
        st.fetched final.1
        (if final.2.length > 0 then some final.2 else none)
    else BoxscoresField.skipped
  { success := true
    seasonCode := seasonCode
    competition := (Js.jsToUpper code)
    gamesFound := gamesList.length
    gamesUpserted := gamesResult.count
    gamesErrors :=
      match gamesResult.errors with
      | some errs => if errs.length > 0 then some errs else none
      | none => none
    boxscores := boxscores
    elapsed := elapsed
    timestamp := nowIso }

end Sync

namespace SyncStats

/-- The success body of the stats-shape variant once stage 1 has passed
with games list `gl` (the success branch of its `syncHandler`). -/
def statsSuccessBody (params : Utils.Params) (gl : List Sync.Game)
    (bsFetch : ℤ → Except String SStatsData)
    (gUp pUp : ℕ → Sync.UpsertHttp) (nowIso elapsed : String) : Body :=
  let code := params.code.getD "E"
  let seasonCode := Utils.getSeasonCode params
  let doBoxscores := !(params.skipBoxscores == some "true") &&
    !(params.skipBoxscores == some "1")
  let gamesList := Sync.applyGamesFilter params.games gl
  let gameRows := gamesList.map fun g =>
    Sync.transformGame g seasonCode (Js.jsToUpper code) nowIso
  let gamesResult := supabaseUpsert "live_games" gameRows gUp
    (some "season_code,game_code")
  let boxscores :=
    if doBoxscores then
      let eligibleGames := gamesList.filter Sync.eligiblePred
      let st := fanoutLoop bsFetch seasonCode (Js.jsToUpper code) nowIso
        eligibleGames ⟨0, [], []⟩
      let final :=
        if st.rows.length > 0 then
          let psResult := supabaseUpsert "player_stats" st.rows pUp
            (some "season_code,game_code,person_code")
          (psResult.count,
            if psResult.errors.length > 0 then st.errors ++ psResult.errors
            else st.errors)
        else (0, st.errors)
      Sync.BoxscoresField.stats
        ((gamesList.filter Sync.reportedEligiblePred).length)
        st.fetched final.1
        (if final.2.length > 0 then some (final.2.take 5) else none)
    else Sync.BoxscoresField.skipped
  { success := true
    seasonCode := seasonCode
    competition := (Js.jsToUpper code)
    gamesFound := gamesList.length
    gamesUpserted := gamesResult.count
    boxscores := boxscores
    errors :=
      if gamesResult.errors.length > 0 then some (gamesResult.errors.take 5)
      else none
    elapsed := elapsed
    timestamp := nowIso }

end SyncStats

/-!  ## Fixtures for concrete-instance theorems -/

/-- A minimal game-info record for transform-level tests. -/
def giFix : Sync.GameInfo := ⟨1, "E2025", "E", none, none⟩

/-- A minimal team-info record for transform-level tests. -/
def tiFix : Sync.TeamInfo := ⟨none, none, none⟩

/-- A flat player whose upstream record carries decimal minutes (the
second accepted upstream shape) instead of a `"MM:SS"` string. -/
def playerDecimalMinutes : Sync.FlatPlayer :=
  { Sync.emptyFlatPlayer with minutes := some (.num (51 / 2)) }

/-- A flat player carrying only the `twoPointsMade` / `threePointsMade`
field names (no `fieldGoalsMade2` / `fieldGoalsMade3`), the documented
fallback shape. -/
def playerSplitFallback : Sync.FlatPlayer :=
  { Sync.emptyFlatPlayer with
    personCode := some "P001"
    twoPointsMade := some 3
    threePointsMade := some 2 }


/-- The empty request-parameter record (no query parameters supplied). -/
def params0 : Utils.Params := ⟨none, none, none, none, none⟩

/-- An upsert oracle whose every batch POST succeeds. -/
def upOk : ℕ → Sync.UpsertHttp := fun _ => .ok

/-- An upsert oracle whose every batch POST fails with HTTP 500. -/
def upFail : ℕ → Sync.UpsertHttp := fun _ => .fail 500 "permission denied"

/-- An eligible game (status `"Played"`, played flag set). -/
def playedGame (n : ℤ) : Sync.Game :=
  { Sync.emptyGame n with gameStatus := some "Played", played := some true }

/-- A game reported as `"Played"` by status but carrying no `played`
flag. -/
def statusOnlyGame (n : ℤ) : Sync.Game :=
  { Sync.emptyGame n with gameStatus := some "Played" }

/-- A boxscore whose local side carries one coded player. -/
def oneManBoxscore : Sync.Boxscore :=
  { stats := none
    «local» := some
      { players := some [{ Sync.emptyFlatPlayer with personCode := some "PKP" }]
        playersStats := none
        club := none
        team := none }
    road := none }

/-- A boxscore-fetch oracle that fails for game 7 and succeeds (with
`oneManBoxscore`) for every other game. -/
def failGame7Fetch : ℤ → Except String Sync.Boxscore := fun c =>
  if c = 7 then .error "EuroLeague API returned 500 for /games/7/boxscore"
  else .ok oneManBoxscore

/-- A boxscore-fetch oracle that always fails. -/
def alwaysFailFetch : ℤ → Except String Sync.Boxscore :=
  fun _ => .error "socket hang up"

/-- A stats-fetch oracle that always fails. -/
def alwaysFailStatsFetch : ℤ → Except String SyncStats.SStatsData :=
  fun _ => .error "socket hang up"

/-!  ## Helper lemmas shared by the claim theorems -/

/-- Folding a conditional push over a list is the filtered map. -/
theorem foldl_push_eq_filter_map {α β : Type} (p : α → Bool) (f : α → β) :
    ∀ (l : List α) (acc : List β),
      l.foldl (fun rows e => if p e then rows ++ [f e] else rows) acc =
        acc ++ (l.filter p).map f := by
  intro l
  induction l with
  | nil => intro acc; simp
  | cons a t ih =>
    intro acc
    by_cases hp : p a <;> simp [hp, ih]

/-- The length of a `filterMap` counts the elements mapped to `some`. -/
theorem length_filterMap_eq_countP_isSome {α β : Type} (f : α → Option β) :
    ∀ l : List α, (l.filterMap f).length = l.countP fun a => (f a).isSome := by
  intro l
  induction l with
  | nil => simp
  | cons a t ih =>
    cases hf : f a <;> simp [List.filterMap_cons, hf, List.countP_cons, ih]

namespace Utils

/-- `Map.get` on a cons cell. -/
theorem mapGet_cons {α : Type} (a : String) (b : CacheEntry α)
    (t : List (String × CacheEntry α)) (k : String) :
    mapGet ((a, b) :: t) k = if a = k then some b else mapGet t k := by
  by_cases h : a = k <;> simp [mapGet, List.find?, h]

/-- `Map.set` then `Map.get` at the same key yields the stored entry. -/
theorem mapGet_mapSet_self {α : Type} :
    ∀ (m : List (String × CacheEntry α)) (k : String) (v : CacheEntry α),
      mapGet (mapSet m k v) k = some v := by
  intro m
  induction m with
  | nil => intro k v; simp [mapSet, mapGet, List.find?]
  | cons p t ih =>
    intro k v
    obtain ⟨a, b⟩ := p
    simp only [mapSet]
    by_cases hk : a = k
    · rw [if_pos hk, mapGet_cons, if_pos rfl]
    · rw [if_neg hk, mapGet_cons, if_neg hk, ih]

/-- `Map.delete` removes the key from the key set. -/
theorem mapDelete_not_mem {α : Type}
    (m : List (String × CacheEntry α)) (k : String) :
    k ∉ (mapDelete m k).map Prod.fst := by
  intro hmem
  obtain ⟨⟨a, b⟩, hab, hfst⟩ := List.mem_map.mp hmem
  have hne : a ≠ k := by simpa using (List.mem_filter.mp hab).2
  exact hne hfst

end Utils

namespace Sync

open Js

/-- Folding the settled-result collector over a game list yields: one
increment of `fetched` per success, one `"Game <id>: <message>"` entry
per failure, and the concatenated rows of all successes. -/
theorem foldl_collect_spec (bsFetch : ℤ → Except String Boxscore)
    (sc cp sa : String) :
    ∀ (games : List Game) (st : FanState),
      games.foldl (fun s g => collectResult sc cp sa s (fetchBoxscore bsFetch g)) st =
        ⟨st.fetched + games.countP (fun g => isOkFetch (bsFetch g.gameCode)),
         st.errors ++ fetchErrorMsgs bsFetch games,
         st.rows ++ fetchedRows bsFetch sc cp sa games⟩ := by
  intro games
  induction games with
  | nil => intro st; simp [fetchErrorMsgs, fetchedRows]
  | cons g t ih =>
    intro st
    rw [List.foldl_cons, ih]
    cases hbs : bsFetch g.gameCode with
    | ok bs =>
      simp [collectResult, fetchBoxscore, hbs, fetchErrorMsgs, fetchedRows,
        isOkFetch, List.countP_cons, List.filterMap_cons, List.append_assoc]
      omega
    | error e =>
      simp [collectResult, fetchBoxscore, hbs, fetchErrorMsgs, fetchedRows,
        isOkFetch, List.countP_cons, List.filterMap_cons, List.append_assoc]

/-- The chunked (concurrency-5) fan-out loop computes the same fold as a
straight left fold over all eligible games. -/
theorem fanoutLoop_eq_foldl (bsFetch : ℤ → Except String Boxscore)
    (sc cp sa : String) :
    ∀ (games : List Game) (st : FanState),
      fanoutLoop bsFetch sc cp sa games st =
        games.foldl (fun s g => collectResult sc cp sa s (fetchBoxscore bsFetch g)) st := by
  have key : ∀ (n : ℕ) (games : List Game), games.length ≤ n → ∀ st,
      fanoutLoop bsFetch sc cp sa games st =
        games.foldl (fun s g => collectResult sc cp sa s (fetchBoxscore bsFetch g)) st := by
    intro n
    induction n with
    | zero =>
      intro games hg st
      have hnil : games = [] := List.eq_nil_of_length_eq_zero (Nat.le_zero.mp hg)
      subst hnil
      rw [fanoutLoop]
      simp
    | succ n ih =>
      intro games hg st
      rw [fanoutLoop]
      by_cases he : games.isEmpty
      · have hnil : games = [] := by simpa using he
        subst hnil
        simp
      · have hlen : (games.drop 5).length ≤ n := by
          have hpos : 0 < games.length :=
            List.length_pos.mpr (by simpa using he)
          simp only [List.length_drop]
          omega
        rw [dif_neg he]
        simp only [List.foldl_map, ih (games.drop 5) hlen]
        rw [← List.foldl_append, List.take_append_drop]
  intro games st
  exact key games.length games le_rfl st

/-- The fan-out starting from the empty state is fully characterized by
the success count, the per-failure error strings and the extracted rows. -/
theorem fanoutLoop_char (bsFetch : ℤ → Except String Boxscore)
    (sc cp sa : String) (games : List Game) :
    fanoutLoop bsFetch sc cp sa games ⟨0, [], []⟩ =
      ⟨games.countP (fun g => isOkFetch (bsFetch g.gameCode)),
       fetchErrorMsgs bsFetch games,
       fetchedRows bsFetch sc cp sa games⟩ := by
  rw [fanoutLoop_eq_foldl, foldl_collect_spec]
  simp

/-- When every batch POST succeeds, the upsert loop counts all rows and
records no errors. -/
theorem upsertLoop_allOk {ρ : Type} (table : String)
    (resp : ℕ → UpsertHttp) (hresp : ∀ i, resp i = .ok) :
    ∀ (n : ℕ) (rows : List ρ), rows.length ≤ n → ∀ (b t : ℕ) (e : List String),
      upsertLoop table resp rows b t e = (t + rows.length, e) := by
  intro n
  induction n with
  | zero =>
    intro rows hg b t e
    have hnil : rows = [] := List.eq_nil_of_length_eq_zero (Nat.le_zero.mp hg)
    subst hnil
    rw [upsertLoop]
    simp
  | succ n ih =>
    intro rows hg b t e
    rw [upsertLoop]
    by_cases he : rows.isEmpty
    · have hnil : rows = [] := by simpa using he
      subst hnil
      simp
    · have hpos : 0 < rows.length := List.length_pos.mpr (by simpa using he)
      have hlen : (rows.drop 50).length ≤ n := by
        simp only [List.length_drop]
        omega
      rw [dif_neg he, hresp b]
      simp only [ih (rows.drop 50) hlen]
      simp [List.length_take, List.length_drop]
      omega

/-- When every batch POST succeeds, `supabaseUpsert` reports `ok`, counts
every row, and its error list (present only for nonempty input) is empty. -/
theorem supabaseUpsert_allOk {ρ : Type} (table : String) (rows : List ρ)
    (resp : ℕ → UpsertHttp) (hresp : ∀ i, resp i = .ok) :
    supabaseUpsert table rows resp =
      { ok := true, count := rows.length,
        errors := if rows.length = 0 then none else some [] } := by
  by_cases hl : rows.length = 0
  · simp [supabaseUpsert, hl]
  · rw [supabaseUpsert, if_neg hl,
      upsertLoop_allOk table resp hresp rows.length rows le_rfl 0 0 []]
    simp [hl]

/-- Once the credential is present, the stage-1 fetch succeeded and the
shape check passed, the handler returns 200 with the success body. -/
theorem syncHandler_success_eq (params : Utils.Params) (k : String)
    (gd : GamesData) (gl : List Game)
    (bsFetch : ℤ → Except String Boxscore)
    (gUp pUp : ℕ → UpsertHttp) (nowIso elapsed : String)
    (hres : resolveGamesList gd = some gl) :
    syncHandler params (some k) (.ok gd) bsFetch gUp pUp nowIso elapsed =
      .success (syncSuccessBody params gl bsFetch gUp pUp nowIso elapsed) := by
  simp only [syncHandler, syncSuccessBody, hres]

end Sync

namespace SyncStats

/-- Stats-variant fold characterization (errors only, which is all the
claims need): one `"Game <id>: <message>"` entry per failed fetch. -/
theorem foldl_collect_errors (bsFetch : ℤ → Except String SStatsData)
    (sc cp sa : String) :
    ∀ (games : List Sync.Game) (st : FanState),
      (games.foldl (fun s g => collectResult sc cp sa s (fetchStats bsFetch g)) st).errors =
        st.errors ++ games.filterMap (fun g =>
          match bsFetch g.gameCode with
          | .error e => some ("Game " ++ toString g.gameCode ++ ": " ++ e)
          | .ok _ => none) := by
  intro games
  induction games with
  | nil => intro st; simp
  | cons g t ih =>
    intro st
    rw [List.foldl_cons, ih]
    cases hbs : bsFetch g.gameCode with
    | ok bs =>
      simp [collectResult, fetchStats, hbs, List.filterMap_cons]
    | error e =>
      simp [collectResult, fetchStats, hbs, List.filterMap_cons, List.append_assoc]

/-- The stats-variant handler returns 200 with its success body once
stage 1 passes. -/
theorem statsHandler_success_eq (params : Utils.Params) (k : String)
    (gd : Sync.GamesData) (gl : List Sync.Game)
    (bsFetch : ℤ → Except String SStatsData)
    (gUp pUp : ℕ → Sync.UpsertHttp) (nowIso elapsed : String)
    (hres : Sync.resolveGamesList gd = some gl) :
    syncHandler params (some k) (.ok gd) bsFetch gUp pUp nowIso elapsed =
      .success (statsSuccessBody params gl bsFetch gUp pUp nowIso elapsed) := by
  simp only [syncHandler, statsSuccessBody, hres]

end SyncStats

/-!  ## Claim theorems -/

/-- C9: the season-code resolver returns a present non-empty override
verbatim, and otherwise `uppercase(competitionCode) ++ seasonYear`; in
particular `resolve("e","2025",null) = "E2025"` and
`resolve("j","2025","JTA25") = "JTA25"`; `getSeasonCode` resolves request
parameters the same way (override first); it is a total function. -/
theorem claim_C9_season_code_resolver :
    (∀ (code season s : String), s ≠ "" →
      Utils.buildSeasonCode code season (some s) = s) ∧
    (∀ (code season : String),
      Utils.buildSeasonCode code season none = Js.jsToUpper code ++ season) ∧
    (∀ (code season : String),
      Utils.buildSeasonCode code season (some "") = Js.jsToUpper code ++ season) ∧
    Utils.buildSeasonCode "e" "2025" none = "E2025" ∧
    Utils.buildSeasonCode "j" "2025" (some "JTA25") = "JTA25" ∧
    (∀ (p : Utils.Params) (s : String), p.seasonCode = some s → s ≠ "" →
      Utils.getSeasonCode p = s) := by
  refine ⟨?_, ?_, ?_, by decide, by decide, ?_⟩
  · intro code season s hs
    simp [Utils.buildSeasonCode, Js.truthyStr, hs]
  · intro code season
    simp [Utils.buildSeasonCode, Js.truthyStr]
  · intro code season
    simp [Utils.buildSeasonCode, Js.truthyStr]
  · intro p s hp hs
    simp [Utils.getSeasonCode, Utils.buildSeasonCode, Js.jsOrNull, Js.truthyStr, hp, hs]

/-- C9 witness: the resolver applied at the claim's own example inputs. -/
theorem claim_C9_witness :
    Utils.buildSeasonCode "x" "2030" (some "JTA25") = "JTA25" ∧
    Utils.getSeasonCode ⟨some "j", some "2025", some "JTA25", none, none⟩ = "JTA25" := by
  exact ⟨claim_C9_season_code_resolver.1 "x" "2030" "JTA25" (by decide),
    claim_C9_season_code_resolver.2.2.2.2.2
      ⟨some "j", some "2025", some "JTA25", none, none⟩ "JTA25" rfl (by decide)⟩

/-- C10 counterexample: the claim says that as soon as `now` is no longer
strictly before the recorded expiry (`set`-time + ttl·1000) the entry is
expired; but `cache.get` tests `Date.now() > entry.expires`, so at
`now = expiry` exactly the value is still returned. -/
theorem claim_C10_counterexample :
    (Utils.cacheGet
      (Utils.cacheSet (Utils.cacheEmpty : Utils.CacheState ℤ) 0 "k" 42 1)
      1000 "k").1 = some 42 ∧
    ¬((1000 : ℤ) < 0 + 1 * 1000) := by
  exact ⟨by decide, by decide⟩

/-- C10 (amended): `set(k,v,ttl)` followed immediately by `get(k)` (any
`ttl ≥ 0`) returns `v`; at `now` exactly the recorded expiry the value is
still returned; and once `now` is strictly after the expiry, `get(k)`
returns absent and evicts the entry, so `k` is no longer in
`stats().keys`. -/
theorem claim_C10_cache_ttl_amended :
    (∀ (α : Type) (m : Utils.CacheState α) (now : ℤ) (k : String) (v : α)
      (ttl : ℤ), 0 ≤ ttl →
      (Utils.cacheGet (Utils.cacheSet m now k v ttl) now k).1 = some v) ∧
    (∀ (α : Type) (m : Utils.CacheState α) (now : ℤ) (k : String) (v : α)
      (ttl : ℤ),
      (Utils.cacheGet (Utils.cacheSet m now k v ttl) (now + ttl * 1000) k).1 =
        some v) ∧
    (∀ (α : Type) (m : Utils.CacheState α) (now : ℤ) (k : String) (v : α)
      (ttl : ℤ) (t' : ℤ), now + ttl * 1000 < t' →
      (Utils.cacheGet (Utils.cacheSet m now k v ttl) t' k).1 = none ∧
      k ∉ Utils.cacheStatsKeys
        (Utils.cacheGet (Utils.cacheSet m now k v ttl) t' k).2) := by
  refine ⟨?_, ?_, ?_⟩
  · intro α m now k v ttl httl
    have hget := Utils.mapGet_mapSet_self m.entries k
      (⟨v, now + ttl * 1000, now⟩ : Utils.CacheEntry α)
    have hexp : ¬(now > now + ttl * 1000) := by nlinarith
    simp [Utils.cacheGet, Utils.cacheSet, hget, hexp]
  · intro α m now k v ttl
    have hget := Utils.mapGet_mapSet_self m.entries k
      (⟨v, now + ttl * 1000, now⟩ : Utils.CacheEntry α)
    simp [Utils.cacheGet, Utils.cacheSet, hget]
  · intro α m now k v ttl t' ht
    have hget := Utils.mapGet_mapSet_self m.entries k
      (⟨v, now + ttl * 1000, now⟩ : Utils.CacheEntry α)
    have hexp : t' > now + ttl * 1000 := ht
    constructor
    · simp [Utils.cacheGet, Utils.cacheSet, hget, hexp]
    · simp only [Utils.cacheGet, Utils.cacheSet, hget, if_pos hexp]
      simpa [Utils.cacheStatsKeys] using
        Utils.mapDelete_not_mem
          (Utils.mapSet m.entries k ⟨v, now + ttl * 1000, now⟩) k

/-- C10 witness: a concrete set/get round trip, the boundary read, and an
expired read with eviction. -/
theorem claim_C10_witness :
    (0 : ℤ) ≤ 60 ∧
    (Utils.cacheGet
      (Utils.cacheSet (Utils.cacheEmpty : Utils.CacheState ℤ) 5 "games" 7 60)
      5 "games").1 = some 7 ∧
    ((5 : ℤ) + 60 * 1000 < 70000 ∧
      (Utils.cacheGet
        (Utils.cacheSet (Utils.cacheEmpty : Utils.CacheState ℤ) 5 "games" 7 60)
        70000 "games").1 = none ∧
      "games" ∉ Utils.cacheStatsKeys
        (Utils.cacheGet
          (Utils.cacheSet (Utils.cacheEmpty : Utils.CacheState ℤ) 5 "games" 7 60)
          70000 "games").2) := by
  refine ⟨by decide, ?_, by decide, ?_, ?_⟩
  · exact claim_C10_cache_ttl_amended.1 ℤ Utils.cacheEmpty 5 "games" 7 60 (by decide)
  · exact (claim_C10_cache_ttl_amended.2.2 ℤ Utils.cacheEmpty 5 "games" 7 60
      70000 (by decide)).1
  · exact (claim_C10_cache_ttl_amended.2.2 ℤ Utils.cacheEmpty 5 "games" 7 60
      70000 (by decide)).2

/-- C3 counterexample: the claim says decimal upstream minutes (e.g. 25.5)
are persisted unchanged by the sync transform; but `sync.js`'s
`parseMinutes` returns 0 for any non-string value, so a flat player whose
`minutes` field is the number 25.5 is persisted with
`minutes_decimal = 0`. -/
theorem claim_C3_counterexample :
    (Sync.transformPlayerStats playerDecimalMinutes giFix tiFix true "t").minutes_decimal =
      Js.JsNum.num 0 ∧
    Js.JsNum.num 0 ≠ Js.JsNum.num (51 / 2) := by
  constructor
  · norm_num [Sync.transformPlayerStats, Sync.parseMinutes, Sync.jsOrMin,
      Sync.truthyMin, playerDecimalMinutes, Sync.emptyFlatPlayer]
  · simp only [ne_eq, Js.JsNum.num.injEq]
    norm_num

/-- C3 (amended): a `"MM:SS"` string is parsed as `MM + SS/60` (so
`"25:30"` yields 25.5); decimal upstream minutes are persisted unchanged
by the stats-shape transform; but the boxscore-shape transform of
`sync.js` persists `minutes_decimal = 0` whenever the minutes value is a
number rather than a string. -/
theorem claim_C3_minutes_amended :
    (∀ (s₁ s₂ : String) (a b : ℚ),
      Js.jsParseFloat s₁ = .num a → Js.jsParseFloat s₂ = .num b →
      Js.jsSplit ':' (s₁ ++ ":" ++ s₂) = [s₁, s₂] → (s₁ ++ ":" ++ s₂) ≠ "" →
      Sync.parseMinutes (some (.str (s₁ ++ ":" ++ s₂))) = .num (a + b / 60)) ∧
    Sync.parseMinutes (some (.str "25:30")) = .num (51 / 2) ∧
    (∀ (e : SyncStats.SEntry) (st : SyncStats.SStats) (gi : Sync.GameInfo)
      (tc tn tv : Option String) (il : Bool) (sa : String) (q : ℚ),
      e.stats = some st → st.timePlayed = some q →
      (SyncStats.transformPlayerStats e gi tc tn tv il sa).minutes_decimal = q) ∧
    (∀ (p : Sync.FlatPlayer) (gi : Sync.GameInfo) (ti : Sync.TeamInfo)
      (il : Bool) (sa : String) (q : ℚ),
      Sync.jsOrMin p.minutes p.timePlayed = some (.num q) →
      (Sync.transformPlayerStats p gi ti il sa).minutes_decimal = .num 0) := by
  refine ⟨?_, ?_, ?_, ?_⟩
  · intro s₁ s₂ a b h1 h2 hsplit hne
    simp only [Sync.parseMinutes, if_neg hne, hsplit, h1, h2, Js.jsAddN, Js.jsDivLit]
  · have h0 : '0'.toNat = 48 := rfl
    have h2 : '2'.toNat = 50 := rfl
    have h3 : '3'.toNat = 51 := rfl
    have h5 : '5'.toNat = 53 := rfl
    norm_num +decide [Sync.parseMinutes, Js.jsSplit, Js.splitCharsOn,
      Js.jsParseFloat, Js.jsAddN, Js.jsDivLit, Js.digitsVal, Js.isDigit,
      Js.digitVal, List.takeWhile, List.dropWhile, List.splitOn,
      List.splitOnP, List.splitOnP.go, h0, h2, h3, h5]
  · intro e st gi tc tn tv il sa q he hq
    simp [SyncStats.transformPlayerStats, he, hq, Js.jsQQD]
  · intro p gi ti il sa q hmin
    simp [Sync.transformPlayerStats, hmin, Sync.parseMinutes]

/-- C3 witness: the general `"MM:SS"` rule applied at the claim's own
`"25:30"` example, plus decimal pass-through at 25.5 in the stats-shape
transform. -/
theorem claim_C3_witness :
    Sync.parseMinutes (some (.str ("25" ++ ":" ++ "30"))) = .num (25 + 30 / 60) ∧
    (SyncStats.transformPlayerStats
      ⟨none, some { SyncStats.SStats.empty with timePlayed := some (51 / 2) }⟩
      giFix none none none true "t").minutes_decimal = 51 / 2 := by
  constructor
  · refine claim_C3_minutes_amended.1 "25" "30" 25 30 ?_ ?_ (by decide) (by decide)
    · have h0 : '0'.toNat = 48 := rfl
      have h2 : '2'.toNat = 50 := rfl
      have h5 : '5'.toNat = 53 := rfl
      norm_num +decide [Js.jsParseFloat, Js.digitsVal, Js.isDigit, Js.digitVal,
        List.takeWhile, List.dropWhile, h0, h2, h5]
    · have h0 : '0'.toNat = 48 := rfl
      have h3 : '3'.toNat = 51 := rfl
      norm_num +decide [Js.jsParseFloat, Js.digitsVal, Js.isDigit, Js.digitVal,
        List.takeWhile, List.dropWhile, h0, h3]
  · exact claim_C3_minutes_amended.2.2.1
      ⟨none, some { SyncStats.SStats.empty with timePlayed := some (51 / 2) }⟩
      { SyncStats.SStats.empty with timePlayed := some (51 / 2) }
      giFix none none none true "t" (51 / 2) rfl rfl

/-- C4: the combined field-goal fields of `sync.js` are the plain JS sum
of the two split fields (`+` binds tighter than `??`, so the documented
fallback chains are unreachable): a record carrying its splits only under
the `twoPointsMade` / `threePointsMade` names gets `field_goals_made =
NaN` while its split columns hold 3 and 2 — the intended equality
`field_goals_made = two_points_made + three_points_made` fails.  In the
stats-shape variant the equality holds unconditionally. -/
theorem claim_C4_field_goals_code_bug :
    (Sync.transformPlayerStats playerSplitFallback giFix tiFix true "t").field_goals_made =
      Js.JsNum.nan ∧
    (Sync.transformPlayerStats playerSplitFallback giFix tiFix true "t").two_points_made = 3 ∧
    (Sync.transformPlayerStats playerSplitFallback giFix tiFix true "t").three_points_made = 2 ∧
    (∀ (p : Sync.FlatPlayer) (gi : Sync.GameInfo) (ti : Sync.TeamInfo)
      (il : Bool) (sa : String),
      (Sync.transformPlayerStats p gi ti il sa).field_goals_made =
        Js.jsAdd p.fieldGoalsMade2 p.fieldGoalsMade3 ∧
      (Sync.transformPlayerStats p gi ti il sa).field_goals_attempted =
        Js.jsAdd p.fieldGoalsAttempted2 p.fieldGoalsAttempted3) ∧
    (∀ (e : SyncStats.SEntry) (gi : Sync.GameInfo) (tc tn tv : Option String)
      (il : Bool) (sa : String),
      (SyncStats.transformPlayerStats e gi tc tn tv il sa).field_goals_made =
        (SyncStats.transformPlayerStats e gi tc tn tv il sa).two_points_made +
        (SyncStats.transformPlayerStats e gi tc tn tv il sa).three_points_made ∧
      (SyncStats.transformPlayerStats e gi tc tn tv il sa).field_goals_attempted =
        (SyncStats.transformPlayerStats e gi tc tn tv il sa).two_points_attempted +
        (SyncStats.transformPlayerStats e gi tc tn tv il sa).three_points_attempted) := by
  refine ⟨rfl, rfl, rfl, ?_, ?_⟩
  · intro p gi ti il sa
    exact ⟨rfl, rfl⟩
  · intro e gi tc tn tv il sa
    exact ⟨rfl, rfl⟩

/-- C5: rows are produced only for player-tagged entries with a person
code.  In the stats-shape variant, extraction is exactly the
keep-filtered map, and an entry is kept iff its person code is truthy and
its `type` tag (when truthy) is `"J"` (players) — so coaches (`"C"`) and
codeless entries yield no row.  In the boxscore-shape `sync.js`
extraction, the pushed rows are exactly those of entries whose
`personCode || code` is truthy (that flat shape carries no coach tag). -/
theorem claim_C5_rows_only_players :
    (∀ (sd : Option SyncStats.SSideData) (il : Bool) (gi : Sync.GameInfo)
      (sa : String),
      SyncStats.sideRows sd il gi sa = SyncStats.sideRowsSpec sd il gi sa) ∧
    (∀ e : SyncStats.SEntry,
      SyncStats.keepEntry e =
        (Js.truthyStr (e.player.bind fun pl => pl.person.bind fun pr => pr.code) &&
          (!Js.truthyStr (e.player.bind fun pl => pl.type) ||
            (e.player.bind fun pl => pl.type) == some "J"))) ∧
    (∀ (statsData : SyncStats.SStatsData) (gc : ℤ) (sc cp : String)
      (rd : Option ℤ) (gdt : Option String) (sa : String),
      SyncStats.extractPlayers statsData gc sc cp rd gdt sa =
        SyncStats.sideRowsSpec statsData.«local» true ⟨gc, sc, cp, rd, gdt⟩ sa ++
        SyncStats.sideRowsSpec statsData.road false ⟨gc, sc, cp, rd, gdt⟩ sa) ∧
    (∀ (ps : List Sync.FlatPlayer) (gi : Sync.GameInfo) (ti : Sync.TeamInfo)
      (il : Bool) (sa : String) (acc : List Sync.PlayerRow),
      Sync.pushPlayers ps gi ti il sa acc =
        acc ++ (ps.filter fun p => Js.truthyStr (Js.jsOrStr p.personCode p.code)).map
          fun p => Sync.transformPlayerStats p gi ti il sa) := by
  have hside : ∀ (sd : Option SyncStats.SSideData) (il : Bool)
      (gi : Sync.GameInfo) (sa : String),
      SyncStats.sideRows sd il gi sa = SyncStats.sideRowsSpec sd il gi sa := by
    intro sd il gi sa
    cases sd with
    | none => rfl
    | some d =>
      cases hp : d.players with
      | none => simp [SyncStats.sideRows, SyncStats.sideRowsSpec, hp]
      | some entries =>
        simp only [SyncStats.sideRows, SyncStats.sideRowsSpec, hp]
        rw [foldl_push_eq_filter_map]
        simp
  refine ⟨hside, ?_, ?_, ?_⟩
  · intro e
    simp only [SyncStats.keepEntry, Bool.not_and, Bool.not_not]
  · intro statsData gc sc cp rd gdt sa
    simp only [SyncStats.extractPlayers, hside]
  · intro ps gi ti il sa acc
    simp only [Sync.pushPlayers]
    rw [foldl_push_eq_filter_map]

/-- C1: in the boxscore fan-out, each per-game fetch failure is caught
individually and recorded as `"Game <id>: <message>"`; siblings and the
overall sync are not aborted (the response is still the 200 success
body); `playersUpserted` counts the rows extracted from every
successfully fetched game (the `player_stats` upsert oracle succeeding);
and the recorded error list holds exactly one entry per failed eligible
game. -/
theorem claim_C1_boxscore_failure_isolation
    (params : Utils.Params) (k : String) (gd : Sync.GamesData)
    (gl : List Sync.Game) (bsFetch : ℤ → Except String Sync.Boxscore)
    (gUp pUp : ℕ → Sync.UpsertHttp) (nowIso elapsed : String)
    (hres : Sync.resolveGamesList gd = some gl)
    (hbox : (!(params.skipBoxscores == some "true") &&
      !(params.skipBoxscores == some "1")) = true)
    (hpUp : ∀ i, pUp i = .ok) :
    Sync.syncHandler params (some k) (.ok gd) bsFetch gUp pUp nowIso elapsed =
      .success (Sync.syncSuccessBody params gl bsFetch gUp pUp nowIso elapsed) ∧
    (Sync.syncSuccessBody params gl bsFetch gUp pUp nowIso elapsed).boxscores =
      Sync.BoxscoresField.stats
        (((Sync.applyGamesFilter params.games gl).filter
          Sync.reportedEligiblePred).length)
        (((Sync.applyGamesFilter params.games gl).filter
          Sync.eligiblePred).countP fun g => Sync.isOkFetch (bsFetch g.gameCode))
        ((Sync.fetchedRows bsFetch (Utils.getSeasonCode params)
          (Js.jsToUpper (params.code.getD "E")) nowIso
          ((Sync.applyGamesFilter params.games gl).filter
            Sync.eligiblePred)).length)
        (if 0 < (Sync.fetchErrorMsgs bsFetch
            ((Sync.applyGamesFilter params.games gl).filter
              Sync.eligiblePred)).length
         then some (Sync.fetchErrorMsgs bsFetch
            ((Sync.applyGamesFilter params.games gl).filter Sync.eligiblePred))
         else none) ∧
    (Sync.fetchErrorMsgs bsFetch
        ((Sync.applyGamesFilter params.games gl).filter
          Sync.eligiblePred)).length =
      ((Sync.applyGamesFilter params.games gl).filter
        Sync.eligiblePred).countP
        fun g => !(Sync.isOkFetch (bsFetch g.gameCode)) := by
  refine ⟨Sync.syncHandler_success_eq params k gd gl bsFetch gUp pUp nowIso
    elapsed hres, ?_, ?_⟩
  · have hps : ∀ rows : List Sync.PlayerRow,
        Sync.supabaseUpsert "player_stats" rows pUp =
          { ok := true, count := rows.length,
            errors := if rows.length = 0 then none else some [] } :=
      fun rows => Sync.supabaseUpsert_allOk "player_stats" rows pUp hpUp
    simp only [Sync.syncSuccessBody, hbox, if_true, Sync.fanoutLoop_char, hps]
    by_cases hr : 0 < (Sync.fetchedRows bsFetch (Utils.getSeasonCode params)
        (Js.jsToUpper (params.code.getD "E")) nowIso
        ((Sync.applyGamesFilter params.games gl).filter Sync.eligiblePred)).length
    · simp [hr, Nat.pos_iff_ne_zero.mp hr]
    · simp only [if_neg hr]
      have hz : (Sync.fetchedRows bsFetch (Utils.getSeasonCode params)
          (Js.jsToUpper (params.code.getD "E")) nowIso
          ((Sync.applyGamesFilter params.games gl).filter
            Sync.eligiblePred)).length = 0 := by omega
      simp [hz]
  · rw [Sync.fetchErrorMsgs, length_filterMap_eq_countP_isSome]
    apply List.countP_congr
    intro g _
    cases hbs : bsFetch g.gameCode <;> simp [hbs, Sync.isOkFetch]

/-- C1 witness: games [1,2,7] all eligible, only game 7's boxscore fetch
failing: the sync still returns the success body, players from games 1
and 2 (one row each) are upserted, and exactly one error entry mentioning
game 7 is reported. -/
theorem claim_C1_witness :
    Sync.syncHandler params0 (some "sk")
        (.ok (.arrData [playedGame 1, playedGame 2, playedGame 7]))
        failGame7Fetch upOk upOk "t" "0ms" =
      .success (Sync.syncSuccessBody params0
        [playedGame 1, playedGame 2, playedGame 7] failGame7Fetch upOk upOk
        "t" "0ms") ∧
    (Sync.syncSuccessBody params0 [playedGame 1, playedGame 2, playedGame 7]
        failGame7Fetch upOk upOk "t" "0ms").boxscores =
      Sync.BoxscoresField.stats 3 2 2
        (some ["Game 7: EuroLeague API returned 500 for /games/7/boxscore"]) := by
  obtain ⟨h1, h2, -⟩ := claim_C1_boxscore_failure_isolation params0 "sk"
    (.arrData [playedGame 1, playedGame 2, playedGame 7])
    [playedGame 1, playedGame 2, playedGame 7] failGame7Fetch upOk upOk
    "t" "0ms" rfl (by decide) (fun i => rfl)
  refine ⟨h1, ?_⟩
  rw [h2]
  decide

/-- C2 counterexample: the claim allows a non-200 response only for the
stage-1 shape mismatch or the absent credential; but when the stage-1
games fetch itself throws (upstream non-2xx), the outer catch also
produces a 500 `"Sync failed: …"` response while the credential is
present and no shape check was ever reached. -/
theorem claim_C2_counterexample :
    Sync.syncHandler params0 (some "sk")
        (.error "EuroLeague API returned 503 for /games")
        (fun _ => .ok Sync.emptyBoxscore) upOk upOk "t" "0ms" =
      .failure "Sync failed: EuroLeague API returned 503 for /games" 500 "t" ∧
    "Sync failed: EuroLeague API returned 503 for /games" ≠
      "Unexpected API response format" ∧
    "Sync failed: EuroLeague API returned 503 for /games" ≠
      "Sync failed: SUPABASE_SERVICE_KEY env var not set. Add it in Netlify → Site config → Environment variables." := by
  exact ⟨rfl, by decide, by decide⟩

/-- C2 (amended): every invocation that passes stage 1 returns HTTP 200
with `success: true`, whatever the upsert batches and per-game fetches
did; and every non-200 response (carrying `{error, timestamp}` and no
`success` field) has status 500 and stems from the credential being
absent, the stage-1 fetch itself failing, or the stage-1 shape mismatch. -/
theorem claim_C2_response_policy_amended :
    (∀ (params : Utils.Params) (k : String) (gd : Sync.GamesData)
      (gl : List Sync.Game) (bsFetch : ℤ → Except String Sync.Boxscore)
      (gUp pUp : ℕ → Sync.UpsertHttp) (nowIso elapsed : String),
      Sync.resolveGamesList gd = some gl →
      Sync.syncHandler params (some k) (.ok gd) bsFetch gUp pUp nowIso elapsed =
        .success (Sync.syncSuccessBody params gl bsFetch gUp pUp nowIso elapsed) ∧
      (Sync.syncSuccessBody params gl bsFetch gUp pUp nowIso elapsed).success = true ∧
      (Sync.syncHandler params (some k) (.ok gd) bsFetch gUp pUp nowIso
        elapsed).statusCode = 200) ∧
    (∀ (params : Utils.Params) (env : Option String)
      (gamesFetch : Except String Sync.GamesData)
      (bsFetch : ℤ → Except String Sync.Boxscore)
      (gUp pUp : ℕ → Sync.UpsertHttp) (nowIso elapsed msg : String)
      (status : ℕ) (ts : String),
      Sync.syncHandler params env gamesFetch bsFetch gUp pUp nowIso elapsed =
        .failure msg status ts →
      status = 500 ∧
      (env = none ∨ (∃ e, gamesFetch = .error e) ∨
        (∃ gd, gamesFetch = .ok gd ∧ Sync.resolveGamesList gd = none))) := by
  constructor
  · intro params k gd gl bsFetch gUp pUp nowIso elapsed hres
    have h := Sync.syncHandler_success_eq params k gd gl bsFetch gUp pUp
      nowIso elapsed hres
    refine ⟨h, ?_, ?_⟩
    · simp [Sync.syncSuccessBody]
    · rw [h]
      rfl
  · intro params env gamesFetch bsFetch gUp pUp nowIso elapsed msg status ts h
    cases env with
    | none =>
      simp only [Sync.syncHandler, Sync.SyncResponse.failure.injEq] at h
      exact ⟨h.2.1.symm, Or.inl rfl⟩
    | some k =>
      cases gamesFetch with
      | error e =>
        simp only [Sync.syncHandler, Sync.SyncResponse.failure.injEq] at h
        exact ⟨h.2.1.symm, Or.inr (Or.inl ⟨e, rfl⟩)⟩
      | ok gd =>
        cases hres : Sync.resolveGamesList gd with
        | none =>
          simp only [Sync.syncHandler, hres, Sync.SyncResponse.failure.injEq] at h
          exact ⟨h.2.1.symm, Or.inr (Or.inr ⟨gd, rfl, hres⟩)⟩
        | some gl =>
          rw [Sync.syncHandler_success_eq params k gd gl bsFetch gUp pUp
            nowIso elapsed hres] at h
          exact absurd h (by simp)

/-- C2 witness: a run whose every upsert batch fails and whose every
boxscore fetch fails still returns 200 with `success: true`. -/
theorem claim_C2_witness :
    Sync.syncHandler params0 (some "sk") (.ok (.arrData [playedGame 1]))
        alwaysFailFetch upFail upFail "t" "0ms" =
      .success (Sync.syncSuccessBody params0 [playedGame 1] alwaysFailFetch
        upFail upFail "t" "0ms") ∧
    (Sync.syncSuccessBody params0 [playedGame 1] alwaysFailFetch upFail upFail
      "t" "0ms").success = true ∧
    (Sync.syncHandler params0 (some "sk") (.ok (.arrData [playedGame 1]))
      alwaysFailFetch upFail upFail "t" "0ms").statusCode = 200 := by
  exact claim_C2_response_policy_amended.1 params0 "sk"
    (.arrData [playedGame 1]) [playedGame 1] alwaysFailFetch upFail upFail
    "t" "0ms" rfl

/-- C6 counterexample: a game whose `gameStatus` is `"Played"` but whose
`played` flag is absent is fetched (it is in the eligible set), yet the
response's `eligible` count — computed with a filter that omits the
`"Played"` status test — reports 0 while `fetched` is 1, so the reported
count does not equal the size of the fetched set. -/
theorem claim_C6_counterexample :
    Sync.syncHandler params0 (some "sk") (.ok (.arrData [statusOnlyGame 1]))
        (fun _ => .ok Sync.emptyBoxscore) upOk upOk "t" "0ms" =
      .success (Sync.syncSuccessBody params0 [statusOnlyGame 1]
        (fun _ => .ok Sync.emptyBoxscore) upOk upOk "t" "0ms") ∧
    (Sync.syncSuccessBody params0 [statusOnlyGame 1]
        (fun _ => .ok Sync.emptyBoxscore) upOk upOk "t" "0ms").boxscores =
      Sync.BoxscoresField.stats 0 1 0 none ∧
    ([statusOnlyGame 1].filter Sync.eligiblePred).length = 1 ∧
    (0 : ℕ) ≠ 1 := by
  refine ⟨Sync.syncHandler_success_eq params0 "sk" _ _ _ upOk upOk "t" "0ms" rfl,
    ?_, by decide, by decide⟩
  simp only [Sync.syncSuccessBody, Sync.fanoutLoop_char]
  decide

/-- C6 (amended): with boxscores enabled, the set of games whose boxscore
is fetched is exactly the eligible set (status ∈ {Played, Live, Playing}
or `played === true`); the response's `eligible` field instead counts the
games passing `played || status ∈ {Live, Playing}`; the two counts agree
whenever every game with status `"Played"` also carries `played: true`. -/
theorem claim_C6_eligibility_corrected
    (params : Utils.Params) (k : String) (gd : Sync.GamesData)
    (gl : List Sync.Game) (bsFetch : ℤ → Except String Sync.Boxscore)
    (gUp pUp : ℕ → Sync.UpsertHttp) (nowIso elapsed : String)
    (hres : Sync.resolveGamesList gd = some gl)
    (hbox : (!(params.skipBoxscores == some "true") &&
      !(params.skipBoxscores == some "1")) = true) :
    Sync.syncHandler params (some k) (.ok gd) bsFetch gUp pUp nowIso elapsed =
      .success (Sync.syncSuccessBody params gl bsFetch gUp pUp nowIso elapsed) ∧
    (∃ pu errsField,
      (Sync.syncSuccessBody params gl bsFetch gUp pUp nowIso elapsed).boxscores =
        Sync.BoxscoresField.stats
          (((Sync.applyGamesFilter params.games gl).filter
            Sync.reportedEligiblePred).length)
          (((Sync.applyGamesFilter params.games gl).filter
            Sync.eligiblePred).countP
            fun g => Sync.isOkFetch (bsFetch g.gameCode))
          pu errsField) ∧
    ((∀ g ∈ Sync.applyGamesFilter params.games gl,
        g.gameStatus = some "Played" → g.played = some true) →
      ((Sync.applyGamesFilter params.games gl).filter
        Sync.reportedEligiblePred).length =
      ((Sync.applyGamesFilter params.games gl).filter
        Sync.eligiblePred).length) := by
  refine ⟨Sync.syncHandler_success_eq params k gd gl bsFetch gUp pUp nowIso
    elapsed hres, ?_, ?_⟩
  · simp only [Sync.syncSuccessBody, hbox, if_true, Sync.fanoutLoop_char]
    exact ⟨_, _, rfl⟩
  · intro hall
    have hfil : (Sync.applyGamesFilter params.games gl).filter
        Sync.reportedEligiblePred =
        (Sync.applyGamesFilter params.games gl).filter Sync.eligiblePred := by
      apply List.filter_congr
      intro g hg
      have hstat := hall g hg
      have htb : Js.truthyBool g.played = (g.played == some true) := by
        cases hp : g.played with
        | none => rfl
        | some b => cases b <;> rfl
      simp only [Sync.reportedEligiblePred, Sync.eligiblePred, htb]
      by_cases hs : g.gameStatus = some "Played"
      · rw [hstat hs, hs]
        simp
      · have hsb : (g.gameStatus == some "Played") = false := by
          simpa using hs
        simp [hsb]
    rw [hfil]

/-- C6 witness: one game with status `"Playing"` and one already-played
game with the flag set, both fetched and both counted, with the agreement
hypothesis holding. -/
theorem claim_C6_witness :
    Sync.syncHandler params0 (some "sk")
        (.ok (.arrData [playedGame 1,
          { Sync.emptyGame 2 with gameStatus := some "Playing" }]))
        (fun _ => .ok Sync.emptyBoxscore) upOk upOk "t" "0ms" =
      .success (Sync.syncSuccessBody params0
        [playedGame 1, { Sync.emptyGame 2 with gameStatus := some "Playing" }]
        (fun _ => .ok Sync.emptyBoxscore) upOk upOk "t" "0ms") ∧
    ([playedGame 1,
        { Sync.emptyGame 2 with gameStatus := some "Playing" }].filter
      Sync.reportedEligiblePred).length =
    ([playedGame 1,
        { Sync.emptyGame 2 with gameStatus := some "Playing" }].filter
      Sync.eligiblePred).length := by
  obtain ⟨h1, -, h3⟩ := claim_C6_eligibility_corrected params0 "sk"
    (.arrData [playedGame 1, { Sync.emptyGame 2 with gameStatus := some "Playing" }])
    [playedGame 1, { Sync.emptyGame 2 with gameStatus := some "Playing" }]
    (fun _ => .ok Sync.emptyBoxscore) upOk upOk "t" "0ms" rfl (by decide)
  exact ⟨h1, h3 (by decide)⟩

/-- An optional error list built as `cond ? xs.slice(0, 5) : undefined`
never exceeds 5 entries. -/
theorem capped_option_le_five (xs : List String) (c : Prop) [Decidable c]
    (l : List String) :
    (if c then some (xs.take 5) else none) = some l → l.length ≤ 5 := by
  intro h
  split at h
  · obtain rfl := Option.some.inj h
    simp only [List.length_take]
    omega
  · cases h

/-- C7 counterexample: a `sync.js` run in which six eligible games all
fail their boxscore fetch reports all six error strings — the response of
this variant does not cap the list to the first 5. -/
theorem claim_C7_counterexample :
    Sync.syncHandler params0 (some "sk")
        (.ok (.arrData [playedGame 1, playedGame 2, playedGame 3,
          playedGame 4, playedGame 5, playedGame 6]))
        alwaysFailFetch upOk upOk "t" "0ms" =
      .success (Sync.syncSuccessBody params0
        [playedGame 1, playedGame 2, playedGame 3, playedGame 4, playedGame 5,
          playedGame 6] alwaysFailFetch upOk upOk "t" "0ms") ∧
    (Sync.syncSuccessBody params0
        [playedGame 1, playedGame 2, playedGame 3, playedGame 4, playedGame 5,
          playedGame 6] alwaysFailFetch upOk upOk "t" "0ms").boxscores =
      Sync.BoxscoresField.stats 6 0 0
        (some ["Game 1: socket hang up", "Game 2: socket hang up",
          "Game 3: socket hang up", "Game 4: socket hang up",
          "Game 5: socket hang up", "Game 6: socket hang up"]) ∧
    ¬((["Game 1: socket hang up", "Game 2: socket hang up",
        "Game 3: socket hang up", "Game 4: socket hang up",
        "Game 5: socket hang up", "Game 6: socket hang up"] :
      List String).length ≤ 5) := by
  refine ⟨Sync.syncHandler_success_eq params0 "sk" _ _ _ upOk upOk "t" "0ms" rfl,
    ?_, by decide⟩
  simp only [Sync.syncSuccessBody, Sync.fanoutLoop_char]
  decide

/-- C7 (amended): in the stats-shape sync variant every per-stage error
list in the response is capped to its first 5 entries; the boxscore
variant (`sync.js`) returns the recorded per-game error list in full,
however long. -/
theorem claim_C7_error_cap_corrected :
    (∀ (params : Utils.Params) (k : String) (gd : Sync.GamesData)
      (gl : List Sync.Game) (bsFetch : ℤ → Except String SyncStats.SStatsData)
      (gUp pUp : ℕ → Sync.UpsertHttp) (nowIso elapsed : String),
      Sync.resolveGamesList gd = some gl →
      SyncStats.syncHandler params (some k) (.ok gd) bsFetch gUp pUp nowIso
        elapsed =
        .success (SyncStats.statsSuccessBody params gl bsFetch gUp pUp nowIso
          elapsed) ∧
      (∀ l, (SyncStats.statsSuccessBody params gl bsFetch gUp pUp nowIso
          elapsed).errors = some l → l.length ≤ 5) ∧
      (∀ e f p l, (SyncStats.statsSuccessBody params gl bsFetch gUp pUp nowIso
          elapsed).boxscores = Sync.BoxscoresField.stats e f p (some l) →
        l.length ≤ 5)) ∧
    (∀ (params : Utils.Params) (gl : List Sync.Game)
      (bsFetch : ℤ → Except String Sync.Boxscore)
      (gUp pUp : ℕ → Sync.UpsertHttp) (nowIso elapsed : String),
      (!(params.skipBoxscores == some "true") &&
        !(params.skipBoxscores == some "1")) = true →
      (∀ i, pUp i = .ok) →
      (Sync.syncSuccessBody params gl bsFetch gUp pUp nowIso elapsed).boxscores =
        Sync.BoxscoresField.stats
          (((Sync.applyGamesFilter params.games gl).filter
            Sync.reportedEligiblePred).length)
          (((Sync.applyGamesFilter params.games gl).filter
            Sync.eligiblePred).countP
            fun g => Sync.isOkFetch (bsFetch g.gameCode))
          ((Sync.fetchedRows bsFetch (Utils.getSeasonCode params)
            (Js.jsToUpper (params.code.getD "E")) nowIso
            ((Sync.applyGamesFilter params.games gl).filter
              Sync.eligiblePred)).length)
          (if 0 < (Sync.fetchErrorMsgs bsFetch
              ((Sync.applyGamesFilter params.games gl).filter
                Sync.eligiblePred)).length
           then some (Sync.fetchErrorMsgs bsFetch
              ((Sync.applyGamesFilter params.games gl).filter
                Sync.eligiblePred))
           else none)) := by
  constructor
  · intro params k gd gl bsFetch gUp pUp nowIso elapsed hres
    refine ⟨SyncStats.statsHandler_success_eq params k gd gl bsFetch gUp pUp
      nowIso elapsed hres, ?_, ?_⟩
    · intro l hl
      simp only [SyncStats.statsSuccessBody] at hl
      exact capped_option_le_five _ _ l hl
    · intro e f p l hl
      simp only [SyncStats.statsSuccessBody] at hl
      split at hl
      · rw [Sync.BoxscoresField.stats.injEq] at hl
        exact capped_option_le_five _ _ l hl.2.2.2
      · simp at hl
  · intro params gl bsFetch gUp pUp nowIso elapsed hbox hpUp
    have hps : ∀ rows : List Sync.PlayerRow,
        Sync.supabaseUpsert "player_stats" rows pUp =
          { ok := true, count := rows.length,
            errors := if rows.length = 0 then none else some [] } :=
      fun rows => Sync.supabaseUpsert_allOk "player_stats" rows pUp hpUp
    simp only [Sync.syncSuccessBody, hbox, if_true, Sync.fanoutLoop_char, hps]
    by_cases hr : 0 < (Sync.fetchedRows bsFetch (Utils.getSeasonCode params)
        (Js.jsToUpper (params.code.getD "E")) nowIso
        ((Sync.applyGamesFilter params.games gl).filter Sync.eligiblePred)).length
    · simp [hr, Nat.pos_iff_ne_zero.mp hr]
    · simp only [if_neg hr]
      have hz : (Sync.fetchedRows bsFetch (Utils.getSeasonCode params)
          (Js.jsToUpper (params.code.getD "E")) nowIso
          ((Sync.applyGamesFilter params.games gl).filter
            Sync.eligiblePred)).length = 0 := by omega
      simp [hz]

/-- C7 witness: a stats-variant run with six failed fetches still has
every reported error list within the 5-entry cap. -/
theorem claim_C7_witness :
    SyncStats.syncHandler params0 (some "sk")
        (.ok (.arrData [playedGame 1, playedGame 2, playedGame 3,
          playedGame 4, playedGame 5, playedGame 6]))
        alwaysFailStatsFetch upOk upOk "t" "0ms" =
      .success (SyncStats.statsSuccessBody params0
        [playedGame 1, playedGame 2, playedGame 3, playedGame 4, playedGame 5,
          playedGame 6] alwaysFailStatsFetch upOk upOk "t" "0ms") ∧
    (∀ l, (SyncStats.statsSuccessBody params0
        [playedGame 1, playedGame 2, playedGame 3, playedGame 4, playedGame 5,
          playedGame 6] alwaysFailStatsFetch upOk upOk "t" "0ms").errors =
      some l → l.length ≤ 5) := by
  obtain ⟨h1, h2, -⟩ := claim_C7_error_cap_corrected.1 params0 "sk"
    (.arrData [playedGame 1, playedGame 2, playedGame 3, playedGame 4,
      playedGame 5, playedGame 6])
    [playedGame 1, playedGame 2, playedGame 3, playedGame 4, playedGame 5,
      playedGame 6] alwaysFailStatsFetch upOk upOk "t" "0ms" rfl
  exact ⟨h1, h2⟩

/-- C8: a truthy caller-supplied games filter keeps exactly the fetched
games whose `gameCode` is in the set obtained by splitting the string on
commas, trimming, and `parseInt`-ing each piece; requested numbers with
no matching fetched game are silently dropped: the response reports the
intersected count as found and upserted (all batches succeeding) and no
error entry for the exclusions. -/
theorem claim_C8_games_filter
    (params : Utils.Params) (k : String) (gd : Sync.GamesData)
    (gl : List Sync.Game) (bsFetch : ℤ → Except String Sync.Boxscore)
    (gUp pUp : ℕ → Sync.UpsertHttp) (nowIso elapsed : String) (fstr : String)
    (hres : Sync.resolveGamesList gd = some gl)
    (hgames : params.games = some fstr) (hf : fstr ≠ "")
    (hgUp : ∀ i, gUp i = .ok) :
    Sync.applyGamesFilter params.games gl =
      gl.filter (fun g => (Sync.parseFilterSet fstr).contains g.gameCode) ∧
    Sync.syncHandler params (some k) (.ok gd) bsFetch gUp pUp nowIso elapsed =
      .success (Sync.syncSuccessBody params gl bsFetch gUp pUp nowIso elapsed) ∧
    (Sync.syncSuccessBody params gl bsFetch gUp pUp nowIso elapsed).gamesFound =
      (gl.filter (fun g => (Sync.parseFilterSet fstr).contains g.gameCode)).length ∧
    (Sync.syncSuccessBody params gl bsFetch gUp pUp nowIso
        elapsed).gamesUpserted =
      (gl.filter (fun g => (Sync.parseFilterSet fstr).contains g.gameCode)).length ∧
    (Sync.syncSuccessBody params gl bsFetch gUp pUp nowIso elapsed).gamesErrors =
      none := by
  have hfil : Sync.applyGamesFilter params.games gl =
      gl.filter (fun g => (Sync.parseFilterSet fstr).contains g.gameCode) := by
    rw [hgames]
    simp [Sync.applyGamesFilter, Js.truthyStr, hf]
  have hup : ∀ (rows : List Sync.GameRow),
      Sync.supabaseUpsert "live_games" rows gUp =
        { ok := true, count := rows.length,
          errors := if rows.length = 0 then none else some [] } :=
    fun rows => Sync.supabaseUpsert_allOk "live_games" rows gUp hgUp
  refine ⟨hfil, Sync.syncHandler_success_eq params k gd gl bsFetch gUp pUp
    nowIso elapsed hres, ?_, ?_, ?_⟩
  · simp only [Sync.syncSuccessBody, hfil]
  · simp only [Sync.syncSuccessBody, hup, hfil, List.length_map]
  · simp only [Sync.syncSuccessBody, hup]
    by_cases hz : (List.map (fun g => Sync.transformGame g
        (Utils.getSeasonCode params) (Js.jsToUpper (params.code.getD "E"))
        nowIso) (Sync.applyGamesFilter params.games gl)).length = 0
    · simp [hz]
    · rw [if_neg hz]
      simp

/-- C8 witness: the claim's own scenario — games [1,2,3] with filter
`"1,3"` keep exactly games 1 and 3, found/upserted report 2, and no error
entry is produced for the dropped request. -/
theorem claim_C8_witness :
    Sync.parseFilterSet "1,3" = [1, 3] ∧
    Sync.applyGamesFilter (some "1,3")
      [Sync.emptyGame 1, Sync.emptyGame 2, Sync.emptyGame 3] =
      [Sync.emptyGame 1, Sync.emptyGame 3] ∧
    (Sync.syncSuccessBody ⟨none, none, none, some "1,3", none⟩
        [Sync.emptyGame 1, Sync.emptyGame 2, Sync.emptyGame 3]
        (fun _ => .ok Sync.emptyBoxscore) upOk upOk "t" "0ms").gamesFound = 2 ∧
    (Sync.syncSuccessBody ⟨none, none, none, some "1,3", none⟩
        [Sync.emptyGame 1, Sync.emptyGame 2, Sync.emptyGame 3]
        (fun _ => .ok Sync.emptyBoxscore) upOk upOk "t" "0ms").gamesErrors =
      none := by
  obtain ⟨hfil, -, hfound, -, herr⟩ := claim_C8_games_filter
    ⟨none, none, none, some "1,3", none⟩ "sk"
    (.arrData [Sync.emptyGame 1, Sync.emptyGame 2, Sync.emptyGame 3])
    [Sync.emptyGame 1, Sync.emptyGame 2, Sync.emptyGame 3]
    (fun _ => .ok Sync.emptyBoxscore) upOk upOk "t" "0ms" "1,3"
    rfl rfl (by decide) (fun i => rfl)
  refine ⟨by decide, ?_, ?_, herr⟩
  · exact hfil
  · rw [hfound]
    decide
